import Mathlib

/-!
Verification development for the AgriStack MIS analytics service
(`app.py`, `config.py`, `nlp_handler.py`, `csv_handler.py`, `db_handler.py`,
`lgd_mapping.py`).

The Python sources are shallowly embedded: dictionaries become association
lists, f-string SQL construction becomes string concatenation, pandas
dataframes become lists of records, and the regular expressions used by the
NLP handler are re-implemented as executable character-list scanners with the
same matching semantics on the inputs the handler receives.  Numeric data
columns are modelled as integers and percentage arithmetic as rationals;
none of the verified properties depends on floating-point rounding.
External effects (the LLM calls, the database connection, the CSV loads and
the district-registry CSV of `lgd_mapping.py`) are passed in as parameters,
mirroring the call boundaries of the source.
-/

namespace AgriStack

/-! ## String primitives

Executable counterparts of the Python string operations used by the source
(`in`, `.lower()`, `.strip()`, `.title()`, `.startswith`), written over
character lists so that every theorem below can be evaluated by `decide`.
-/

/-- `listPrefixOf p s` is true when `p` is a prefix of `s`. -/
def listPrefixOf : List Char → List Char → Bool
  | [], _ => true
  | _ :: _, [] => false
  | a :: ps, b :: ss => a = b && listPrefixOf ps ss

/-- `listInfixOf p s` is true when `p` occurs contiguously inside `s`. -/
def listInfixOf (p : List Char) : List Char → Bool
  | [] => listPrefixOf p []
  | c :: tail => listPrefixOf p (c :: tail) || listInfixOf p tail

/-- Python `pat in s` on strings. -/
def containsStr (s pat : String) : Bool := listInfixOf pat.data s.data

/-- Python `s.startswith(pat)`. -/
def startsWithStr (s pat : String) : Bool := listPrefixOf pat.data s.data

/-- ASCII lower-casing of one character, as Python `str.lower` acts on the
ASCII queries this service receives. -/
def charLower (c : Char) : Char :=
  if 64 < c.toNat ∧ c.toNat < 91 then Char.ofNat (c.toNat + 32) else c

/-- ASCII upper-casing of one character. -/
def charUpper (c : Char) : Char :=
  if 96 < c.toNat ∧ c.toNat < 123 then Char.ofNat (c.toNat - 32) else c

/-- Python `s.lower()`. -/
def lowerStr (s : String) : String := String.mk (s.data.map charLower)

/-- Python `s.strip()`. -/
def trimStr (s : String) : String :=
  String.mk (((s.data.dropWhile Char.isWhitespace).reverse.dropWhile Char.isWhitespace).reverse)

/-- Helper for `titleStr`: upper-case a letter that follows a non-letter. -/
def titleAux : List Char → Bool → List Char
  | [], _ => []
  | c :: cs, prevAlpha =>
    (if prevAlpha then charLower c else charUpper c) :: titleAux cs c.isAlpha

/-- Python `s.title()`. -/
def titleStr (s : String) : String := String.mk (titleAux s.data false)

/-- Lookup in an association list, modelling Python `dict.get` (dict keys are
unique in all the registries below, so first-match lookup agrees with them). -/
def assocLookup {α : Type} : List (String × α) → String → Option α
  | [], _ => none
  | (k, v) :: rest, key => if k = key then some v else assocLookup rest key

/-- Python `sep.join(parts)`. -/
def joinSep (sep : String) : List String → String
  | [] => ""
  | [x] => x
  | x :: y :: rest => x ++ sep ++ joinSep sep (y :: rest)

/-! ## `app.py` — LGD registries (sections 2 and 3 of the source) -/

/-- `STATE_LGD_MAP` of `app.py`: lower-case state name to LGD code. -/
def STATE_LGD_MAP : List (String × String) :=
  [("andhra pradesh", "28"), ("ap", "28"),
   ("arunachal pradesh", "12"),
   ("assam", "18"),
   ("bihar", "10"),
   ("chhattisgarh", "22"), ("chattisgarh", "22"),
   ("goa", "30"),
   ("gujarat", "24"),
   ("haryana", "6"),
   ("himachal pradesh", "2"), ("hp", "2"),
   ("jharkhand", "20"),
   ("karnataka", "29"),
   ("kerala", "32"),
   ("madhya pradesh", "23"), ("mp", "23"),
   ("maharashtra", "27"),
   ("manipur", "14"),
   ("meghalaya", "17"),
   ("mizoram", "15"),
   ("nagaland", "13"),
   ("odisha", "21"), ("orissa", "21"),
   ("punjab", "3"),
   ("rajasthan", "8"),
   ("sikkim", "11"),
   ("tamil nadu", "33"), ("tn", "33"),
   ("telangana", "36"),
   ("tripura", "16"),
   ("uttar pradesh", "9"), ("up", "9"),
   ("uttarakhand", "5"),
   ("west bengal", "19"), ("wb", "19"),
   ("delhi", "7"), ("ncr", "7"),
   ("jammu and kashmir", "1"), ("j&k", "1"),
   ("ladakh", "37"),
   ("puducherry", "34"), ("pondicherry", "34")]

/-- `LGD_TO_STATE` of `app.py`: LGD code to display name. -/
def LGD_TO_STATE : List (String × String) :=
  [("1", "Jammu & Kashmir"), ("2", "Himachal Pradesh"), ("3", "Punjab"),
   ("5", "Uttarakhand"), ("6", "Haryana"), ("7", "Delhi"), ("8", "Rajasthan"),
   ("9", "Uttar Pradesh"), ("10", "Bihar"), ("11", "Sikkim"), ("12", "Arunachal Pradesh"),
   ("13", "Nagaland"), ("14", "Manipur"), ("15", "Mizoram"), ("16", "Tripura"),
   ("17", "Meghalaya"), ("18", "Assam"), ("19", "West Bengal"), ("20", "Jharkhand"),
   ("21", "Odisha"), ("22", "Chhattisgarh"), ("23", "Madhya Pradesh"), ("24", "Gujarat"),
   ("27", "Maharashtra"), ("28", "Andhra Pradesh"), ("29", "Karnataka"), ("30", "Goa"),
   ("32", "Kerala"), ("33", "Tamil Nadu"), ("34", "Puducherry"), ("36", "Telangana"),
   ("37", "Ladakh")]

/-- One entry of `INDICATOR_MAP` in `app.py`. -/
structure IndMeta where
  table : String
  column : String
  agg : String
  title : String
  unit : String
deriving Repr, DecidableEq

/-- `INDICATOR_MAP` of `app.py`. -/
def INDICATOR_MAP : List (String × IndMeta) :=
  [("plots_assigned", ⟨"aggregate_summary_data", "total_assigned_plots", "SUM", "Plots Assigned", "Count"⟩),
   ("plots_surveyed", ⟨"aggregate_summary_data", "total_plots_surveyed", "SUM", "Plots Surveyed", "Count"⟩),
   ("surveyor_count", ⟨"aggregate_summary_data", "total_no_of_surveyors", "SUM", "Surveyors Deployed", "Count"⟩),
   ("approved_surveys", ⟨"aggregate_summary_data", "total_survey_approved", "SUM", "Approved Surveys", "Count"⟩),
   ("crop_area", ⟨"crop_area_data", "crop_area_approved", "SUM", "Approved Crop Area", "Hectares"⟩),
   ("farmer_count", ⟨"crop_area_data", "no_of_farmers", "SUM", "Registered Farmers", "Count"⟩),
   ("plot_count", ⟨"crop_area_data", "no_of_plots", "SUM", "Total Plots", "Count"⟩),
   ("fallow_land", ⟨"cultivated_summary_data", "total_fallow_area", "SUM", "Fallow Land", "Hectares"⟩),
   ("irrigated_land", ⟨"cultivated_summary_data", "total_irrigated_area", "SUM", "Irrigated Area", "Hectares"⟩),
   ("unirrigated_land", ⟨"cultivated_summary_data", "total_unirrigated_area", "SUM", "Unirrigated Area", "Hectares"⟩),
   ("harvested_land", ⟨"cultivated_summary_data", "total_harvested_area", "SUM", "Harvested Area", "Hectares"⟩),
   ("surveyed_area", ⟨"cultivated_summary_data", "total_surveyed_area", "SUM", "Total Surveyed Area", "Hectares"⟩)]

/-- One entry of `DIMENSION_MAP` in `app.py`. -/
structure DimMeta where
  column : String
  chart : String
  label : String
deriving Repr, DecidableEq

/-- `DIMENSION_MAP` of `app.py`. -/
def DIMENSION_MAP : List (String × DimMeta) :=
  [("district", ⟨"district_lgd_code", "bar", "District"⟩),
   ("sub_district", ⟨"sub_district_lgd_code", "bar", "Sub-District"⟩),
   ("village", ⟨"village_lgd_code", "bar", "Village"⟩),
   ("crop", ⟨"crop_name_eng", "pie", "Crop"⟩),
   ("irrigation", ⟨"irrigation_source", "pie", "Irrigation Source"⟩),
   ("season", ⟨"season", "pie", "Season"⟩),
   ("year", ⟨"year", "line", "Year"⟩)]

/-! ## `app.py` — LGD authorization guard (`check_lgd_authorization`) -/

/-- The dictionary returned by `check_lgd_authorization` in `app.py`; absent
keys are `none`. -/
structure AuthResult where
  authorized : Bool
  user_state : Option String := none
  user_lgd : Option String := none
  requested_state : Option String := none
  requested_lgd : Option String := none
  message : Option String := none
deriving Repr, DecidableEq

/-- The denial record built by `check_lgd_authorization` when the mentioned
state's code differs from the caller's: both state names and codes plus the
human-readable message. -/
def denied_result (user_lgd mentioned_lgd ms : String) : AuthResult :=
  let user_state := (assocLookup LGD_TO_STATE user_lgd).getD ("LGD " ++ user_lgd)
  let mentioned_state_name := (assocLookup LGD_TO_STATE mentioned_lgd).getD (titleStr ms)
  { authorized := false,
    user_state := some user_state,
    user_lgd := some user_lgd,
    requested_state := some mentioned_state_name,
    requested_lgd := some mentioned_lgd,
    message := some ("You are currently authorized for " ++ user_state ++ " (LGD: "
      ++ user_lgd ++ "). Data for " ++ mentioned_state_name ++ " (LGD: "
      ++ mentioned_lgd
      ++ ") cannot be accessed with your current permissions. Please contact your administrator for cross-state access or ask questions about "
      ++ user_state ++ ".") }

/-- `check_lgd_authorization(user_lgd, mentioned_state)` of `app.py`
(lines 522-553).  A falsy `mentioned_state` (Python `None` or `""`) is
modelled by `none` or `some ""`. -/
def check_lgd_authorization (user_lgd : String) (mentioned_state : Option String) : AuthResult :=
  match mentioned_state with
  | none => { authorized := true }
  | some ms =>
    if ms = "" then { authorized := true }
    else
      match assocLookup STATE_LGD_MAP (lowerStr ms) with
      | none => { authorized := true }
      | some mentioned_lgd =>
        if mentioned_lgd ≠ user_lgd then denied_result user_lgd mentioned_lgd ms
        else { authorized := true }

/-! ## `app.py` — SQL builder (`build_analytics_sql`, lines 559-636) -/

/-- The `time_params` dictionary of an analytics intent (`intent["time"]`);
`year` absent means the Python `dict.get("year", "current")` default. -/
structure TimeParams where
  year : Option String := none
  season : Option String := none
deriving Repr, DecidableEq

/-- The `filters` list assembled inside `build_analytics_sql`: the mandatory
state-code equality, then the year condition (`current` resolves to the
MAX(year) sub-select over the caller's own rows, `all` adds nothing, any
other value becomes a LIKE prefix match), then the optional season filter.
All values are interpolated into the SQL text exactly as the f-strings of
the source do. -/
def sql_filters (table : String) (time_params : TimeParams) (user_lgd : String) : List String :=
  let base := ["state_lgd_code = '" ++ user_lgd ++ "'"]
  let year_val := time_params.year.getD "current"
  let withYear :=
    if year_val = "current" then
      base ++ ["year = (SELECT MAX(year) FROM " ++ table
        ++ " WHERE state_lgd_code = '" ++ user_lgd ++ "')"]
    else if year_val = "all" then base
    else base ++ ["year LIKE '" ++ year_val ++ "%'"]
  match time_params.season with
  | some s => if s = "" then withYear else withYear ++ ["season ILIKE '" ++ s ++ "'"]
  | none => withYear

/-- The fallback indicator metadata (`INDICATOR_MAP["crop_area"]`). -/
def cropAreaInd : IndMeta :=
  ⟨"crop_area_data", "crop_area_approved", "SUM", "Approved Crop Area", "Hectares"⟩

/-- The `sql_parts` list assembled inside `build_analytics_sql`: SELECT, FROM
and WHERE clauses, then — only when a dimension resolved — the GROUP BY,
ORDER BY and LIMIT clauses (the source appends each clause when its string is
non-empty, which happens exactly when `dim` resolved). -/
def build_sql_parts (indicator_key0 : String) (dimension_key : Option String)
    (time_params : TimeParams) (user_lgd : String) : List String :=
  let ind := (assocLookup INDICATOR_MAP indicator_key0).getD cropAreaInd
  let dim := dimension_key.bind (assocLookup DIMENSION_MAP)
  let select_clause :=
    match dim with
    | some d => "SELECT " ++ d.column ++ " as label, " ++ ind.agg ++ "(" ++ ind.column ++ ") as value"
    | none => "SELECT " ++ ind.agg ++ "(" ++ ind.column ++ ") as value"
  let from_clause := "FROM " ++ ind.table
  let where_clause := "WHERE " ++ joinSep " AND " (sql_filters ind.table time_params user_lgd)
  [select_clause, from_clause, where_clause]
    ++ (match dim with | some d => ["GROUP BY " ++ d.column] | none => [])
    ++ (match dim with | some _ => ["ORDER BY value DESC"] | none => [])
    ++ (match dim with | some _ => ["LIMIT 15"] | none => [])

/-- The dictionary returned by `build_analytics_sql`. -/
structure SqlPlan where
  sql : String
  title : String
  chart_type : String
  unit : String
  indicator : String
  dimension : Option String
deriving Repr, DecidableEq

/-- `build_analytics_sql(indicator_key, dimension_key, time_params, user_lgd)`
of `app.py` (lines 559-636).  An unknown indicator key falls back to
`"crop_area"`; an unknown dimension key leaves `dim = None` and produces the
ungrouped KPI shape. -/
def build_analytics_sql (indicator_key0 : String) (dimension_key : Option String)
    (time_params : TimeParams) (user_lgd : String) : SqlPlan :=
  let indicator_key :=
    if (assocLookup INDICATOR_MAP indicator_key0).isSome then indicator_key0 else "crop_area"
  let ind := (assocLookup INDICATOR_MAP indicator_key).getD cropAreaInd
  let dim := dimension_key.bind (assocLookup DIMENSION_MAP)
  let title_suffix := match dim with
    | some d => " by " ++ d.label
    | none => " (Total)"
  let chart_type := match dim with
    | some d => d.chart
    | none => "kpi"
  { sql := joinSep " " (build_sql_parts indicator_key dimension_key time_params user_lgd),
    title := ind.title ++ title_suffix,
    chart_type := chart_type,
    unit := ind.unit,
    indicator := indicator_key,
    dimension := dimension_key }

/-! ## `db_handler.py` — SQL text built by `DBHandler.execute_analytics` -/

/-- The SQL string interpolated by `DBHandler.execute_analytics`
(`db_handler.py` line 30); `actual_dim` is the dimension column when it
exists in the table, else the literal `'Total'` label is selected and no
GROUP BY is emitted. -/
def db_build_sql (table val_col : String) (actual_dim : Option String) (user_lgd : String) : String :=
  let label_col := actual_dim.getD "'Total'"
  let group_clause := match actual_dim with | some c => "GROUP BY " ++ c | none => ""
  "SELECT " ++ label_col ++ " as label, SUM(" ++ val_col ++ ") as value FROM " ++ table
    ++ " WHERE state_lgd_code = '" ++ user_lgd ++ "' " ++ group_clause ++ " ORDER BY value DESC"

/-! ## `app.py` — the `/chat` endpoint's analytics branch (lines 743-850) -/

/-- The fields of a classified analytics intent consumed by `chat`
(`intent.get("indicator")`, `intent.get("dimension")`, `intent.get("time")`,
`intent.get("mentioned_state")`). -/
structure AppIntent where
  indicator : Option String := none
  dimension : Option String := none
  time : TimeParams := {}
  mentioned_state : Option String := none
deriving Repr, DecidableEq

/-- `user_lgd = query.user_lgd_code or "27"` in `chat`. -/
def effective_user_lgd (user_lgd_code : Option String) : String :=
  match user_lgd_code with
  | some s => if s = "" then "27" else s
  | none => "27"

/-- What step 3A/3B of `chat` produces: either the Access Restricted response
(title, narration and the guard's denial record — no SQL plan exists) or the
plan handed to the database. -/
inductive AnalyticsOutcome where
  | restricted (title narration : String) (auth : AuthResult) : AnalyticsOutcome
  | planned (plan : SqlPlan) : AnalyticsOutcome
deriving Repr, DecidableEq

/-- Whether the outcome carries a built SQL plan. -/
def AnalyticsOutcome.isPlanned : AnalyticsOutcome → Bool
  | planned _ => true
  | restricted _ _ _ => false

/-- The response title of the outcome. -/
def AnalyticsOutcome.title : AnalyticsOutcome → String
  | restricted t _ _ => t
  | planned p => p.title

/-- Steps 3A and 3B of the `chat` endpoint for an analytics-mode intent:
run the LGD authorization guard on the mentioned state; on denial return the
Access Restricted response without building any SQL; otherwise build the
plan via `build_analytics_sql`. -/
def chat_analytics (user_lgd_code : Option String) (intent : AppIntent) : AnalyticsOutcome :=
  let user_lgd := effective_user_lgd user_lgd_code
  let auth := check_lgd_authorization user_lgd intent.mentioned_state
  if auth.authorized then
    .planned (build_analytics_sql (intent.indicator.getD "crop_area") intent.dimension
      intent.time user_lgd)
  else
    .restricted "Access Restricted" (auth.message.getD "") auth

/-- A row returned by the database cursor in `chat` step 3C (`label` may be
absent for KPI queries, `value` may be SQL NULL). -/
structure SqlRow where
  label : Option String := none
  value : Option Rat := none

/-- The response assembled by `chat` (title, chart payload, narration and the
`metadata["result"]` marker). -/
structure ChatResponse where
  title : String
  chart_type : String
  chart_labels : Option (List String)
  chart_values : List Rat
  unit : String
  narration : String
  result : String

/-- Step 3C of the `chat` endpoint: map the fetched rows to labels/values
(`label` defaulting to `"Total"`, NULL values to 0), answer with the explicit
no-data response when no values remain or all are zero, and otherwise with
the success response whose narration is produced by `generate_narration`
(passed in as `narrate`). -/
def process_rows (plan : SqlPlan) (user_state user_lgd : String)
    (narrate : List String → List Rat → String) (rows : List SqlRow) : ChatResponse :=
  let labels := rows.map (fun r => r.label.getD "Total")
  let values := rows.map (fun r => r.value.getD 0)
  if values.isEmpty || values.all (fun v => v == 0) then
    { title := plan.title, chart_type := "message", chart_labels := none, chart_values := [],
      unit := plan.unit,
      narration := "No data found for " ++ lowerStr plan.title ++ " in " ++ user_state
        ++ " (LGD: " ++ user_lgd
        ++ "). This may indicate no records for the selected criteria or pending data uploads.",
      result := "no_data" }
  else
    { title := plan.title, chart_type := plan.chart_type,
      chart_labels := if plan.chart_type = "kpi" then none else some labels,
      chart_values := values, unit := plan.unit,
      narration := narrate labels values,
      result := "success" }

/-! ## `config.py` — registries shared by the NLP and CSV handlers -/

/-- One entry of the `INDICATORS` registry in `config.py`. -/
structure CfgInd where
  table : String
  column : String
  title : String
  unit : String
  keywords : List String
deriving Repr, DecidableEq

/-- `INDICATORS` of `config.py`, in dictionary order (the order matters for
the keyword-scoring tie break in `_detect_indicator`). -/
def INDICATORS : List (String × CfgInd) :=
  [("crop_area", ⟨"crop_area", "crop_area_approved", "Cultivated Crop Area", "Hectares",
     ["crop area", "approved area", "approved crop", "crop status", "cultivation area",
      "crop cultivation", "cultivated area", "cultivated land", "cultivated", "cultivation",
      "highest cultivated", "total cultivated"]⟩),
   ("crop_area_closed", ⟨"crop_area", "crop_area_closed", "Closed Crop Area", "Hectares",
     ["closed area", "crop closed", "closed crop", "crop_area_closed"]⟩),
   ("farmers", ⟨"crop_area", "no_of_farmers", "Registered Farmers", "Farmers",
     ["farmer", "farmers", "farmer count", "number of farmers", "total farmers",
      "farmer participation"]⟩),
   ("plots", ⟨"crop_area", "no_of_plots", "Number of Plots", "Plots",
     ["plots recorded", "crop plots", "number of plots"]⟩),
   ("pending_validation", ⟨"crop_area", "pending", "Crops Pending Validation", "Hectares",
     ["pending validation", "pending approval", "not approved", "awaiting approval",
      "pending crops", "validation pending"]⟩),
   ("total_plots", ⟨"aggregate", "total_plots", "Total Plots", "Plots",
     ["total plots", "all plots", "total number of plots"]⟩),
   ("assigned_plots", ⟨"aggregate", "total_assigned_plots", "Assigned Plots for Survey", "Plots",
     ["assigned plots", "plots assigned", "assigned for survey", "how many plots assigned"]⟩),
   ("surveyed_plots", ⟨"aggregate", "total_plots_surveyed", "Plots Surveyed", "Plots",
     ["surveyed plots", "plots surveyed", "survey completed", "surveyed so far",
      "survey progress", "survey status"]⟩),
   ("unsurveyed_plots", ⟨"aggregate", "total_plots_unable_to_survey", "Unsurveyed Plots", "Plots",
     ["unable to survey", "unsurveyed", "not surveyed", "unable", "unsurveyed plots",
      "low survey coverage", "plots not surveyed"]⟩),
   ("survey_approved", ⟨"aggregate", "total_survey_approved", "Surveys Approved", "Surveys",
     ["survey approved", "approved surveys", "approval", "surveys approved", "approval counts"]⟩),
   ("survey_under_review", ⟨"aggregate", "total_survey_under_review", "Surveys Under Review", "Surveys",
     ["under review", "review", "pending review", "surveys pending", "currently under review"]⟩),
   ("today_survey", ⟨"aggregate", "total_today_survey", "Today's Survey Count", "Surveys",
     ["today survey", "today's count", "daily survey", "today's survey"]⟩),
   ("surveyors", ⟨"aggregate", "total_no_of_surveyors", "Number of Surveyors", "Surveyors",
     ["surveyors", "surveyor count", "number of surveyors"]⟩),
   ("surveyed_area", ⟨"cultivated", "total_surveyed_area", "Total Surveyed Area", "Hectares",
     ["surveyed area", "survey area", "total surveyed", "land surveyed", "surveyed land",
      "area surveyed"]⟩),
   ("surveyable_area", ⟨"cultivated", "total_surveyable_area", "Total Surveyable Area", "Hectares",
     ["surveyable area", "surveyable", "total surveyable"]⟩),
   ("fallow_area", ⟨"cultivated", "total_fallow_area", "Fallow Area", "Hectares",
     ["fallow", "fallow area", "fallow land", "uncultivated land"]⟩),
   ("na_area", ⟨"cultivated", "total_na_area", "NA Area", "Hectares",
     ["na area", "not available", "na", "classified as na"]⟩),
   ("harvested_area", ⟨"cultivated", "total_harvested_area", "Harvested Area", "Hectares",
     ["harvested", "harvest area", "harvested area", "total harvested"]⟩),
   ("irrigated_area", ⟨"cultivated", "total_irrigated_area", "Irrigated Area", "Hectares",
     ["irrigated", "irrigation", "irrigated area", "irrigated land"]⟩),
   ("unirrigated_area", ⟨"cultivated", "total_unirrigated_area", "Unirrigated Area", "Hectares",
     ["unirrigated", "rainfed", "unirrigated area", "rain-fed"]⟩),
   ("perennial_area", ⟨"cultivated", "total_perennial_crop_area", "Perennial Crop Area", "Hectares",
     ["perennial", "perennial crop", "perennial area"]⟩),
   ("biennial_area", ⟨"cultivated", "total_biennial_crop_area", "Biennial Crop Area", "Hectares",
     ["biennial", "biennial crop", "biennial area"]⟩),
   ("seasonal_area", ⟨"cultivated", "total_seasonal_crop_area", "Seasonal Crop Area", "Hectares",
     ["seasonal", "seasonal crop", "seasonal area"]⟩),
   ("surveyed_plots_cult", ⟨"cultivated", "total_surveyed_plots", "Total Surveyed Plots", "Plots",
     ["total surveyed plots"]⟩)]

/-- One entry of the `DIMENSIONS` registry in `config.py`. -/
structure CfgDim where
  column : String
  title : String
  keywords : List String
deriving Repr, DecidableEq

/-- `DIMENSIONS` of `config.py`, in dictionary order. -/
def DIMENSIONS : List (String × CfgDim) :=
  [("district", ⟨"district_lgd_code", "District",
     ["district", "district-wise", "by district", "districts", "districtwise"]⟩),
   ("season", ⟨"season", "Season",
     ["season", "season-wise", "by season", "kharif", "rabi", "summer", "seasonal", "seasonwise"]⟩),
   ("crop", ⟨"crop_name_eng", "Crop",
     ["crop", "crop-wise", "by crop", "crops", "top crops", "top 5 crops", "cropwise", "which crops"]⟩),
   ("year", ⟨"year", "Year",
     ["year", "year-wise", "by year", "yearly", "annual", "yearwise"]⟩),
   ("irrigation", ⟨"irrigation_source", "Irrigation Source",
     ["irrigation", "irrigation source", "water source", "irrigation-wise"]⟩),
   ("village", ⟨"village_lgd_code", "Village",
     ["village", "village-wise", "by village", "villagewise"]⟩),
   ("state", ⟨"state_lgd_code", "State",
     ["state", "state-wise", "by state", "statewise", "across states"]⟩)]

/-- `DISTRIBUTION_KEYWORDS` of `config.py`. -/
def DISTRIBUTION_KEYWORDS : List String :=
  ["distribution", "breakdown", "split", "comparison", "compare",
   "share", "by", "wise", "top", "highest", "lowest", "which",
   "across", "summary", "trend"]

/-- `CROP_NAMES` of `config.py`. -/
def CROP_NAMES : List String :=
  ["wheat", "rice", "maize", "corn", "sorghum", "jowar", "bajra", "pearl millet",
   "chickpea", "gram", "chana", "pigeon pea", "tur", "arhar", "lentil", "moong", "urad",
   "sugarcane", "cotton", "soybean", "groundnut", "mustard", "sunflower", "safflower",
   "onion", "potato", "tomato", "brinjal", "chilli", "turmeric", "ginger",
   "banana", "mango", "orange", "grapes", "pomegranate", "guava", "papaya",
   "ragi", "barley", "oats", "sesame", "castor"]

/-- `SEASON_NAMES` of `config.py`. -/
def SEASON_NAMES : List String := ["kharif", "rabi", "summer", "zaid"]

/-! ## `nlp_handler.py` — tokenization and detection helpers -/

/-- A character of the regex class `\w` (`\b\w+\b` tokenization). -/
def isWordChar (c : Char) : Bool := c.isAlphanum || c = '_'

/-- Helper for `wordsOf`: accumulate a maximal run of word characters. -/
def wordsOfAux : List Char → List Char → List String
  | [], acc => if acc.isEmpty then [] else [String.mk acc.reverse]
  | c :: cs, acc =>
    if isWordChar c then wordsOfAux cs (c :: acc)
    else if acc.isEmpty then wordsOfAux cs []
    else String.mk acc.reverse :: wordsOfAux cs []

/-- `re.findall(r'\b\w+\b', q)`: the maximal word-character runs of `q`. -/
def wordsOf (s : String) : List String := wordsOfAux s.data []

/-- Python `set(...)` construction: distinct elements, first occurrences kept. -/
def dedupFirstAux : List String → List String → List String
  | [], _ => []
  | x :: xs, seen =>
    if seen.contains x then dedupFirstAux xs seen else x :: dedupFirstAux xs (x :: seen)

/-- The word set of a query (`words = set(re.findall(r'\b\w+\b', q))`). -/
def wordSet (s : String) : List String := dedupFirstAux (wordsOf s) []

/-- Truthiness of a Python set intersection `a & b`. -/
def interNonempty (a b : List String) : Bool := a.any (fun x => b.contains x)

/-- Whether there is no following word character (the trailing `\b`). -/
def wbAfter : List Char → Bool
  | [] => true
  | c :: _ => !isWordChar c

/-- Whether the previous character (if any) is not a word character (the
leading `\b`, for patterns that start with a word character). -/
def wbBefore : Option Char → Bool
  | none => true
  | some c => !isWordChar c

/-- Scan for `\b pat \b` (word-boundary match of a word-character pattern). -/
def wbScan (p : List Char) : Option Char → List Char → Bool
  | _, [] => false
  | prev, c :: rest =>
    (wbBefore prev && listPrefixOf p (c :: rest) && wbAfter ((c :: rest).drop p.length))
      || wbScan p (some c) rest

/-- `re.search(r'\b' + re.escape(kw) + r'\b', q)` for a word-character keyword. -/
def wbContains (q kw : String) : Bool := wbScan kw.data none q.data

/-- `re.search("^" + p + r"\b", q)`: `q` starts with `p` and the match ends at
a word boundary. -/
def startsWb (q p : String) : Bool :=
  listPrefixOf p.data q.data && wbAfter (q.data.drop p.data.length)

/-- First group of a `(keyword list, result)` table whose keywords hit `q`
(the nested `for` loops used by `_detect_indicator`, `_detect_dimension` and
`_detect_comparison`). -/
def firstPriorityMatch (q : String) : List (List String × String) → Option String
  | [] => none
  | (kws, res) :: rest =>
    if kws.any (fun kw => containsStr q kw) then some res else firstPriorityMatch q rest

/-- `NLPHandler._is_summary_request` (`nlp_handler.py` lines 143-158). -/
def is_summary_request (q : String) : Bool :=
  ["summary", "total", "overall", "aggregate", "national-level",
   "national level", "state-level", "state level", "provide a",
   "give me", "show me total", "what is total", "how much total"].any
    (fun kw => containsStr q kw)

/-- `NLPHandler._detect_multi_indicators` (lines 160-201); the empty list
stands for Python `None` (fewer than two distinct indicators found). -/
def detect_multi_indicators (q : String) : List String :=
  let l1 := if ["survey", "surveyed", "surveying"].any (fun w => containsStr q w)
    then ["surveyed_plots"] else []
  let l2 := if ["crop area", "crop-area", "sowing"].any (fun w => containsStr q w)
    then ["crop_area"] else []
  let l3 := if ["cultivated", "cultivation"].any (fun w => containsStr q w)
    then ["crop_area"] else []
  let l4 := if containsStr q "farmer" then ["farmers"] else []
  let l5 := if containsStr q "plot" && !containsStr q "survey" then ["total_plots"] else []
  let l6 := if containsStr q "irrigat" then ["irrigated_area"] else []
  let l7 := if containsStr q "fallow" then ["fallow_area"] else []
  let found := dedupFirstAux (l1 ++ l2 ++ l3 ++ l4 ++ l5 ++ l6 ++ l7) []
  if 1 < found.length then found else []

/-- The `priority_mappings` table of `_detect_indicator` (lines 207-255). -/
def priority_mappings : List (List String × String) :=
  [(["pending validation", "pending approval", "not approved", "awaiting approval",
     "validation pending", "crops pending", "pending crops", "under validation"], "pending_validation"),
   (["cultivated area", "cultivated land", "cultivation area", "total cultivated",
     "highest cultivated", "cultivation summary", "crop cultivation", "land cultivated"], "crop_area"),
   (["surveyed area", "survey area", "total surveyed", "land surveyed",
     "area surveyed", "surveyed land"], "surveyed_area"),
   (["unsurveyed plots", "unsurveyed", "not surveyed", "unable to survey",
     "plots not surveyed", "plots unsurveyed", "unservey", "un-surveyed",
     "plots unable", "unable survey"], "unsurveyed_plots"),
   (["survey progress", "plots surveyed", "surveyed plots", "survey status",
     "survey completed", "surveyed so far"], "surveyed_plots"),
   (["irrigated area", "irrigation area", "irrigated land"], "irrigated_area"),
   (["unirrigated area", "unirrigated land", "rainfed area"], "unirrigated_area"),
   (["irrigated vs unirrigated", "irrigation comparison"], "irrigated_area"),
   (["fallow area", "fallow land", "uncultivated"], "fallow_area"),
   (["farmer count", "number of farmers", "total farmers", "registered farmers",
     "how many farmers"], "farmers"),
   (["total plots", "number of plots", "plot count"], "total_plots"),
   (["assigned plots", "plots assigned"], "assigned_plots"),
   (["crop area", "approved area", "approved crop", "crop status"], "crop_area"),
   (["closed area", "closed crop", "crop closed"], "crop_area_closed"),
   (["surveyors", "surveyor count", "number of surveyors"], "surveyors"),
   (["survey approved", "approved surveys", "surveys approved"], "survey_approved"),
   (["under review", "pending review", "surveys pending"], "survey_under_review")]

/-- `len(kw.split())`: the number of whitespace-separated parts. -/
def spaceSplitCountAux : List Char → Bool → Nat
  | [], _ => 0
  | c :: cs, inRun =>
    if c.isWhitespace then spaceSplitCountAux cs false
    else if inRun then spaceSplitCountAux cs true
    else 1 + spaceSplitCountAux cs true

/-- `len(kw.split())` on a string. -/
def spaceSplitCount (s : String) : Nat := spaceSplitCountAux s.data false

/-- One keyword's match test in the scoring loop: short keywords (at most 3
characters) must match on word boundaries, longer ones as substrings. -/
def kwMatches (q kw : String) : Bool :=
  if kw.data.length ≤ 3 then wbContains q kw else containsStr q kw

/-- The score of one indicator's keyword list. -/
def kwScore (q : String) (kws : List String) : Nat :=
  (kws.map (fun kw => if kwMatches q kw then spaceSplitCount kw * 2 else 0)).sum

/-- Python `max(scores, key=scores.get)`: the first entry with the maximal
score, in registry iteration order. -/
def argmaxFirst : List (String × Nat) → String × Nat
  | [] => ("crop_area", 0)
  | x :: xs => xs.foldl (fun best p => if best.2 < p.2 then p else best) x

/-- `NLPHandler._detect_indicator` (lines 203-293): priority phrase groups,
then keyword scoring over `INDICATORS`, then contextual fallbacks, finally
the `"crop_area"` default. -/
def detect_indicator (q : String) : String :=
  match firstPriorityMatch q priority_mappings with
  | some ind => ind
  | none =>
    let scores := INDICATORS.map (fun kv => (kv.1, kwScore q kv.2.keywords))
    let best := argmaxFirst scores
    if 0 < best.2 then best.1
    else if containsStr q "survey" && !containsStr q "area" then "surveyed_plots"
    else if containsStr q "survey" && containsStr q "area" then "surveyed_area"
    else if containsStr q "cultivat" then "crop_area"
    else if containsStr q "farmer" then "farmers"
    else if containsStr q "plot" then "total_plots"
    else "crop_area"

/-- The explicit `dimension_patterns` table of `_detect_dimension`. -/
def dimension_patterns : List (List String × String) :=
  [(["district-wise", "district wise", "by district", "districtwise",
     "across districts", "each district", "per district"], "district"),
   (["crop-wise", "crop wise", "by crop", "cropwise", "each crop",
     "per crop", "which crops", "which crop", "top crops"], "crop"),
   (["season-wise", "season wise", "by season", "seasonwise",
     "each season", "per season", "which season"], "season"),
   (["year-wise", "year wise", "by year", "yearwise", "yearly",
     "annual", "each year", "per year", "which year"], "year"),
   (["village-wise", "village wise", "by village", "villagewise"], "village"),
   (["irrigation-wise", "by irrigation", "irrigation source"], "irrigation")]

/-- The `DIMENSIONS`-keyword pass of `_detect_dimension`. -/
def firstDimKeyword (q : String) : List (String × CfgDim) → Option String
  | [] => none
  | (k, m) :: rest =>
    if m.keywords.any (fun kw => containsStr q kw) then some k else firstDimKeyword q rest

/-- `NLPHandler._detect_dimension` (lines 295-345). -/
def detect_dimension (q : String) : Option String :=
  match firstPriorityMatch q dimension_patterns with
  | some d => some d
  | none =>
    match firstDimKeyword q DIMENSIONS with
    | some d => some d
    | none =>
      if DISTRIBUTION_KEYWORDS.any (fun w => containsStr q w) then
        if containsStr q "crop" then some "crop"
        else if containsStr q "district" then some "district"
        else if containsStr q "season" then some "season"
        else if containsStr q "year" then some "year"
        else none
      else none

/-- `NLPHandler._detect_crop` (lines 347-359); the Python function returns a
single title-cased string for one match and a list for several — both are
modelled as the list of matches, the empty list standing for `None`. -/
def detect_crop (q : String) : List String :=
  (CROP_NAMES.filter (fun c => containsStr q c)).map titleStr

/-- `NLPHandler._detect_season` (lines 361-366). -/
def detect_season (q : String) : Option String :=
  match SEASON_NAMES.find? (fun s => containsStr q s) with
  | some s => some (titleStr s)
  | none => none

/-! ## `nlp_handler.py` — off-topic detection (`_is_off_topic`) -/

/-- The `agri_keywords` set of `_is_off_topic` (lines 372-398). -/
def agri_keywords : List String :=
  ["crop", "crops", "wheat", "rice", "maize", "sorghum", "sugarcane", "cotton",
   "soybean", "groundnut", "onion", "banana", "mango", "chickpea", "gram",
   "bajra", "jowar", "ragi", "mustard", "sunflower", "potato", "tomato",
   "farmer", "farmers", "farm", "farming", "agriculture", "agricultural",
   "cultivate", "cultivated", "cultivation", "sowing", "harvest", "harvested",
   "irrigation", "irrigated", "unirrigated", "fallow", "land", "area",
   "survey", "surveys", "surveyed", "surveyor", "surveyors", "surveying",
   "unsurveyed", "surveyable",
   "plot", "plots", "village", "villages",
   "approved", "approval", "pending", "review", "assigned", "closed",
   "progress", "registered", "validation", "verified",
   "kharif", "rabi", "summer", "zaid", "season", "seasons",
   "district", "districts", "state", "year", "annual",
   "total", "summary", "count", "number", "how", "many",
   "percentage", "distribution", "comparison", "trend",
   "top", "highest", "lowest", "average",
   "hectare", "hectares", "acre", "acres"]

/-- The `off_topic_patterns` list of `_is_off_topic` (lines 418-450). -/
def off_topic_patterns : List String :=
  ["weather", "temperature", "rain", "rainfall", "forecast", "climate today",
   "hot", "cold", "sunny", "cloudy", "humidity",
   "cricket", "football", "soccer", "match", "score", "ipl", "world cup",
   "player", "team", "sports",
   "movie", "film", "song", "music", "actor", "actress", "celebrity",
   "netflix", "youtube", "video",
   "capital", "president", "prime minister", "country", "population",
   "history", "geography", "science", "math",
   "code", "programming", "software", "app", "website", "computer",
   "phone", "mobile", "laptop",
   "your name", "who are you", "what are you", "how old",
   "time now", "what time", "today date", "current time",
   "news", "headlines", "latest news", "breaking",
   "price of", "buy", "sell", "amazon", "flipkart", "shopping",
   "flight", "train", "bus", "ticket", "hotel", "travel",
   "recipe", "cook", "restaurant", "food delivery",
   "doctor", "hospital", "medicine", "disease", "symptoms",
   "stock", "share market", "bitcoin", "crypto", "bank"]

/-- `re.search("^what does .+ mean", q)`: the query starts with
`"what does "`, then at least one character, then `" mean"`. -/
def whatDoesMeanMatch (q : String) : Bool :=
  listPrefixOf "what does ".data q.data &&
    (match q.data.drop 10 with
     | [] => false
     | _ :: t => listInfixOf " mean".data t)

/-- Whether one of the `general_knowledge_patterns` of `_is_off_topic`
matches `q` (they all drive the same return logic, so any-match is
equivalent to the source's first-match loop). -/
def general_knowledge_match (q : String) : Bool :=
  startsWb q "what is" || startsWb q "what are" || startsWb q "who is" || startsWb q "who are"
    || startsWb q "define" || startsWb q "meaning of" || startsWb q "tell me about"
    || startsWb q "explain" || startsWb q "describe" || whatDoesMeanMatch q

/-- `NLPHandler._is_off_topic(q, words, district_detected)` (lines 368-467).
A general-knowledge pattern with no agricultural word (and no crop name)
is off-topic; an off-topic marker with no agricultural word is off-topic;
otherwise a query with neither agricultural words nor crop names is
off-topic unless a district name was detected. -/
def is_off_topic (q : String) (words : List String) (district_detected : Bool) : Bool :=
  if general_knowledge_match q then
    if interNonempty words agri_keywords || interNonempty words CROP_NAMES then false else true
  else if off_topic_patterns.any (fun p => containsStr q p) then
    if interNonempty words agri_keywords then false else true
  else if !interNonempty words agri_keywords && !interNonempty words CROP_NAMES then
    if district_detected then false else true
  else false

/-- `NLPHandler._get_suggested_queries` (lines 469-477). -/
def suggested_queries_list : List String :=
  ["Show total cultivated crop area",
   "How many farmers are registered?",
   "District-wise crop area distribution",
   "Top 10 crops by cultivated area",
   "Show survey progress for plots"]

/-! ## `nlp_handler.py` — year and top-N detection -/

/-- The wall clock consulted by `_detect_year` for "current year" phrases
(`datetime.now()`), passed in explicitly. -/
structure Now where
  year : Nat
  month : Nat
deriving Repr, DecidableEq

/-- The value of a digit run. -/
def natOfDigits (l : List Char) : Nat := l.foldl (fun n c => n * 10 + (c.toNat - 48)) 0

/-- A match of `\d{4}-\d{4}` starting at the head of the list. -/
def year44At : List Char → Option String
  | a :: b :: c :: d :: dash :: e :: f :: g :: h :: _ =>
    if a.isDigit && b.isDigit && c.isDigit && d.isDigit && dash = '-'
        && e.isDigit && f.isDigit && g.isDigit && h.isDigit then
      some (String.mk [a, b, c, d, dash, e, f, g, h])
    else none
  | _ => none

/-- A match of `\d{4}-\d{2}` starting at the head of the list. -/
def year42At : List Char → Option String
  | a :: b :: c :: d :: dash :: e :: f :: _ =>
    if a.isDigit && b.isDigit && c.isDigit && d.isDigit && dash = '-'
        && e.isDigit && f.isDigit then
      some (String.mk [a, b, c, d, dash, e, f])
    else none
  | _ => none

/-- `re.search` for a pattern matcher: the match at the earliest position. -/
def findFirst (f : List Char → Option String) : List Char → Option String
  | [] => f []
  | c :: rest =>
    match f (c :: rest) with
    | some s => some s
    | none => findFirst f rest

/-- A match of `202[0-9]|2019|2018` at the head, with a trailing boundary. -/
def singleYearHere : List Char → Option String
  | a :: b :: c :: d :: rest =>
    if a = '2' && b = '0' && ((c = '2' && d.isDigit) || (c = '1' && (d = '8' || d = '9')))
        && wbAfter rest then
      some (String.mk [a, b, c, d])
    else none
  | _ => none

/-- `re.search(r'\b(202[0-9]|2019|2018)\b', q)`. -/
def findSingleYear : Option Char → List Char → Option String
  | _, [] => none
  | prev, c :: rest =>
    match (if wbBefore prev then singleYearHere (c :: rest) else none) with
    | some s => some s
    | none => findSingleYear (some c) rest

/-- `NLPHandler._detect_year(q)` (lines 479-514): "current year" phrases
resolve against the wall clock (agricultural year starts in April); then the
first `YYYY-YYYY` match passes through, the first `YYYY-YY` match is
normalized to `YYYY-(YYYY+1)`, and a lone recent year `Y` expands to
`Y-(Y+1)`; otherwise no year filter. -/
def detect_year (now : Now) (q : String) : Option String :=
  if ["current year", "this year", "present year"].any (fun p => containsStr q p) then
    if 4 ≤ now.month then some (toString now.year ++ "-" ++ toString (now.year + 1))
    else some (toString (now.year - 1) ++ "-" ++ toString now.year)
  else
    match findFirst year44At q.data with
    | some ystr => some ystr
    | none =>
      match findFirst year42At q.data with
      | some ystr =>
        let first_year := String.mk (ystr.data.take 4)
        some (first_year ++ "-" ++ toString (natOfDigits (ystr.data.take 4) + 1))
      | none =>
        match findSingleYear none q.data with
        | some y => some (y ++ "-" ++ toString (natOfDigits y.data + 1))
        | none => none

/-- A match of `top\s*(\d+)` starting at the head of the list. -/
def topNAt : List Char → Option Nat
  | 't' :: 'o' :: 'p' :: rest =>
    let rest2 := rest.dropWhile Char.isWhitespace
    let digs := rest2.takeWhile Char.isDigit
    if digs.isEmpty then none else some (natOfDigits digs)
  | _ => none

/-- `re.search(r'top\s*(\d+)', q)`. -/
def scanTopN : List Char → Option Nat
  | [] => none
  | c :: rest =>
    match topNAt (c :: rest) with
    | some n => some n
    | none => scanTopN rest

/-- `NLPHandler._detect_top_n` (lines 516-527). -/
def detect_top_n (q : String) : Nat :=
  match scanTopN q.data with
  | some n => n
  | none =>
    if containsStr q "top 5" || containsStr q "top five" then 5
    else if containsStr q "top 10" || containsStr q "top ten" then 10
    else if containsStr q "top 3" || containsStr q "top three" then 3
    else 10

/-- The `comparison_patterns` table of `_detect_comparison` (lines 529-555). -/
def comparison_patterns : List (List String × String) :=
  [(["irrigated vs unirrigated", "irrigated and unirrigated",
     "irrigated versus unirrigated", "compare irrigated"], "irrigated_vs_unirrigated"),
   (["assigned vs surveyed", "assigned and surveyed", "assign vs survey",
     "assigned versus surveyed"], "assigned_vs_surveyed"),
   (["approved vs closed", "approved and closed", "approved versus closed"], "approved_vs_closed"),
   (["surveyable vs surveyed", "surveyable and surveyed"], "surveyable_vs_surveyed"),
   (["rabi vs kharif", "rabi and kharif", "kharif vs rabi",
     "rabi versus kharif", "compare rabi", "compare kharif"], "rabi_vs_kharif"),
   (["fallow vs cultivated", "fallow and cultivated"], "fallow_vs_cultivated")]

/-- `NLPHandler._detect_comparison`. -/
def detect_comparison (q : String) : Option String :=
  firstPriorityMatch q comparison_patterns

/-! ## `nlp_handler.py` — `classify_intent` -/

/-- The greeting vocabulary of `classify_intent`. -/
def greetingsSet : List String :=
  ["hi", "hello", "hey", "greetings", "hellow", "helo", "hii", "hai", "namaste"]

/-- The help vocabulary of `classify_intent` (the two-word entry can never
equal a single token, exactly as in the source, where it is inert). -/
def helpWordsSet : List String := ["help", "guide", "what can"]

/-- The crop-area auto-promotion keywords of `classify_intent` step 11. -/
def cropAreaAutoKws : List String :=
  ["crop area", "cultivated area", "cultivation", "total crop", "all crop"]

/-- The intent dictionary produced by `NLPHandler.classify_intent`; keys that
a given mode does not emit keep their defaults. -/
structure IntentResult where
  mode : String
  sub_type : Option String := none
  original_query : Option String := none
  suggested_queries : List String := []
  intent_type : Option String := none
  indicators : List String := []
  indicator : Option String := none
  dimension : Option String := none
  district_filter : Option String := none
  district_name : Option String := none
  crop_filter : List String := []
  season_filter : Option String := none
  year_filter : Option String := none
  comparison_type : Option String := none
  top_n : Nat := 10
deriving Repr, DecidableEq

/-- `NLPHandler.classify_intent(query, state_lgd)` (lines 44-141).  The
district detection of `lgd_mapping.detect_district_in_query` reads a
registry CSV from disk; its result (LGD code and display name, or `none`)
is therefore passed in as `district`.  The wall clock used by `_detect_year`
is passed as `now`. -/
def classify_intent (now : Now) (query : String) (district : Option (String × String)) :
    IntentResult :=
  let q := trimStr (lowerStr query)
  let words := wordSet q
  if interNonempty words greetingsSet && decide (words.length ≤ 5) then
    { mode := "conversation", sub_type := some "greeting" }
  else if interNonempty words helpWordsSet && decide (words.length ≤ 8) then
    { mode := "conversation", sub_type := some "help" }
  else
    let district_lgd := district.map Prod.fst
    let district_name := district.map Prod.snd
    if is_off_topic q words district_lgd.isSome then
      { mode := "off_topic", original_query := some query,
        suggested_queries := suggested_queries_list }
    else
      let multi := detect_multi_indicators q
      if 1 < multi.length then
        { mode := "analytics", intent_type := some "multi_summary", indicators := multi,
          year_filter := detect_year now q, season_filter := detect_season q,
          crop_filter := [], district_filter := district_lgd, district_name := district_name,
          dimension := none, comparison_type := none, top_n := 10 }
      else
        let year_filter := detect_year now q
        let is_summary := is_summary_request q
        let dimension0 := if is_summary then none else detect_dimension q
        let indicator := detect_indicator q
        let crop_filter := detect_crop q
        let season_filter := detect_season q
        let comparison_type := detect_comparison q
        let top_n := detect_top_n q
        let dimension :=
          if indicator = "crop_area" && crop_filter.isEmpty && dimension0.isNone then
            (if cropAreaAutoKws.any (fun kw => containsStr q kw) then some "crop" else dimension0)
          else dimension0
        let intent_type :=
          if comparison_type.isSome then "comparison"
          else if dimension.isSome then "distribution"
          else "summary"
        { mode := "analytics", indicator := some indicator, dimension := dimension,
          district_filter := district_lgd, district_name := district_name,
          crop_filter := crop_filter, season_filter := season_filter,
          year_filter := year_filter, comparison_type := comparison_type,
          top_n := top_n, intent_type := some intent_type }

/-! ## Sorting primitives (the pandas `sort_values` / `sort_index` calls)

`sortBy` is insertion sort by a boolean "less or equal" test; the theorems
below only use the sortedness and permutation-length facts proved here, so
the tie-breaking order of equal elements (unspecified for pandas quicksort)
never matters. -/

/-- Insert `a` into `l` before the first element it compares `le` to. -/
def insertBy {α : Type} (le : α → α → Bool) (a : α) : List α → List α
  | [] => [a]
  | b :: l => if le a b then a :: b :: l else b :: insertBy le a l

/-- Insertion sort by `le`. -/
def sortBy {α : Type} (le : α → α → Bool) : List α → List α
  | [] => []
  | a :: l => insertBy le a (sortBy le l)

/-- Lexicographic order on character lists (pandas string index order). -/
def charListLe : List Char → List Char → Bool
  | [], _ => true
  | _ :: _, [] => false
  | a :: xs, b :: ys => if a = b then charListLe xs ys else decide (a.toNat < b.toNat)

/-- Lexicographic order on strings. -/
def strLeB (a b : String) : Bool := charListLe a.data b.data

/-! ## `csv_handler.py` — data model -/

/-- A row of one of the cached CSV tables.  The join/filter/grouping columns
are explicit fields (`crop_name_eng` is optional because pandas treats its
missing values as NaN: `na=False` filtering and `groupby` dropping);
numeric columns are accessed by name through `nums`. -/
structure CsvRow where
  state_lgd_code : String := ""
  district_lgd_code : String := ""
  village_lgd_code : String := ""
  season : String := ""
  year : String := ""
  irrigation_source : String := ""
  crop_name_eng : Option String := none
  nums : String → Int := fun _ => 0

/-- The CSV environment of `CSVHandler`: per-table rows and column lists as
loaded by `_load_csv`, plus the `_load_merged_data` outer-join cache (built
by pandas, hence supplied as data). -/
structure CsvEnv where
  rows : String → List CsvRow
  columns : String → List String
  merged_rows : List CsvRow := []
  merged_columns : List String := []

/-- The `intent` fields read by `CSVHandler.execute_analytics`. -/
structure CsvIntent where
  indicator : String := "crop_area"
  dimension : Option String := none
  crop_filter : Option String := none
  season_filter : Option String := none
  year_filter : Option String := none
  top_n : Nat := 10
  comparison_type : Option String := none

/-- The result dictionary of the CSV executor; keys a branch does not emit
keep their defaults, and the spread-in `extra_stats` of `_summary_result`
and `get_combined_stats` are collected in `extras`. -/
structure CsvResult where
  title : String := ""
  unit : String := ""
  labels : List String := []
  values : List Int := []
  percentages : List Rat := []
  total : Int := 0
  chart_type : String := ""
  dimension : Option String := none
  comparison_type : Option String := none
  crop_filter : Option String := none
  season_filter : Option String := none
  year_filter : Option String := none
  note : Option String := none
  record_count : Nat := 0
  extras : List (String × Int) := []
deriving Repr, DecidableEq

/-- Reading a grouping column from a row (`df[label_col]`); `none` models a
NaN key, which pandas `groupby` drops. -/
def colValue (col : String) (r : CsvRow) : Option String :=
  if col = "district_lgd_code" then some r.district_lgd_code
  else if col = "season" then some r.season
  else if col = "year" then some r.year
  else if col = "irrigation_source" then some r.irrigation_source
  else if col = "village_lgd_code" then some r.village_lgd_code
  else if col = "state_lgd_code" then some r.state_lgd_code
  else if col = "crop_name_eng" then r.crop_name_eng
  else none

/-- The distinct (non-NaN) keys of a grouping column. -/
def groupKeys (df : List CsvRow) (col : String) : List String :=
  dedupFirstAux (df.filterMap (colValue col)) []

/-- `df.groupby(label_col)[val_col].sum()`: one summed value per distinct
key, keys in ascending order (pandas sorts group keys). -/
def groupSum (df : List CsvRow) (col : String) (val : CsvRow → Int) : List (String × Int) :=
  let pairs := (groupKeys df col).map
    (fun k => (k, ((df.filter (fun r => colValue col r == some k)).map val).sum))
  sortBy (fun a b => strLeB a.1 b.1) pairs

/-- The sum of a numeric column over a frame (`df[col].sum()`). -/
def sumCol (df : List CsvRow) (c : String) : Int := (df.map (fun r => r.nums c)).sum

/-- `" ".join(title_parts)` as built by `_grouped_result`/`_summary_result`. -/
def mkTitleParts (crop_filter : Option String) (base : List String)
    (season_filter year_filter : Option String) : String :=
  joinSep " " ((match crop_filter with | some c => [c] | none => []) ++ base
    ++ (match season_filter with | some s => ["(" ++ s ++ ")"] | none => [])
    ++ (match year_filter with | some y => ["[" ++ y ++ "]"] | none => []))

/-- `CSVHandler._empty_result` (lines 355-364). -/
def empty_result (ind : CfgInd) (note : String) : CsvResult :=
  { title := ind.title, unit := ind.unit, labels := [], values := [],
    chart_type := "kpi", note := some note }

/-- `CSVHandler._grouped_result` (lines 135-192): group by the dimension
column and sum; the `year` dimension is ordered chronologically ascending
with no row cap, every other dimension is ordered by value descending and
capped at `top_n`; percentages guard against a zero total. -/
def grouped_result (columns : List String) (df : List CsvRow) (dimension_key : String)
    (val_col : String) (ind : CfgInd) (crop_filter season_filter year_filter : Option String)
    (top_n : Nat) : CsvResult :=
  let dim := (assocLookup DIMENSIONS dimension_key).getD ⟨"", "", []⟩
  let label_col := dim.column
  if label_col ∈ columns then
    let grouped := groupSum df label_col (fun r => r.nums val_col)
    let result :=
      if dimension_key = "year" then grouped
      else (sortBy (fun a b => decide (b.2 ≤ a.2)) grouped).take top_n
    let total := (result.map Prod.snd).sum
    let labels := result.map Prod.fst
    let values := result.map Prod.snd
    let percentages := values.map
      (fun (v : Int) => if 0 < total then (v : Rat) / (total : Rat) * 100 else (0 : Rat))
    let chart_type :=
      if dimension_key = "year" then "bar"
      else if values.length ≤ 6 then "pie" else "bar"
    { title := mkTitleParts crop_filter [ind.title, "by " ++ dim.title] season_filter year_filter,
      unit := ind.unit, labels := labels, values := values, percentages := percentages,
      total := total, chart_type := chart_type, dimension := some dim.title,
      crop_filter := crop_filter, season_filter := season_filter, year_filter := year_filter,
      record_count := df.length }
  else
    empty_result ind ("Dimension '" ++ dim.title ++ "' not available in this data.")

/-- The distinct non-NaN crop names of a frame (`df['crop_name_eng'].nunique()`). -/
def uniqueCrops (df : List CsvRow) : Nat :=
  (dedupFirstAux (df.filterMap (fun r => r.crop_name_eng)) []).length

/-- `CSVHandler._summary_result` (lines 194-243). -/
def summary_result (columns : List String) (df : List CsvRow) (val_col : String) (ind : CfgInd)
    (crop_filter season_filter year_filter : Option String) (table_name : String) : CsvResult :=
  let total := sumCol df val_col
  let extras :=
    if table_name = "crop_area" then
      (if "no_of_farmers" ∈ columns then [("farmers_count", sumCol df "no_of_farmers")] else [])
        ++ (if "no_of_plots" ∈ columns then [("plots_count", sumCol df "no_of_plots")] else [])
        ++ (if "crop_name_eng" ∈ columns then [("unique_crops", (uniqueCrops df : Int))] else [])
    else if table_name = "aggregate" then
      (["total_plots", "total_assigned_plots", "total_plots_surveyed",
        "total_survey_approved", "total_survey_under_review"].filter
          (fun c => c ∈ columns)).map (fun c => (c, sumCol df c))
    else if table_name = "cultivated" then
      (["total_irrigated_area", "total_unirrigated_area", "total_fallow_area",
        "total_harvested_area", "total_surveyable_area"].filter
          (fun c => c ∈ columns)).map (fun c => (c, sumCol df c))
    else []
  { title := mkTitleParts crop_filter [ind.title] season_filter year_filter,
    unit := ind.unit, labels := ["Total"], values := [total], chart_type := "kpi",
    crop_filter := crop_filter, season_filter := season_filter, year_filter := year_filter,
    record_count := df.length, extras := extras }

/-- `CSVHandler._handle_comparison` (lines 245-353): each comparison type
computes exactly two named aggregates; a comparison whose columns are not in
the frame falls through to the "Comparison data not available." result. -/
def handle_comparison (columns : List String) (df : List CsvRow) (comparison_type : String)
    (ind : CfgInd) (merged_rows : List CsvRow) (merged_columns : List String)
    (user_lgd : String) : CsvResult :=
  let val_col := ind.column
  if comparison_type = "irrigated_vs_unirrigated"
      && "total_irrigated_area" ∈ columns && "total_unirrigated_area" ∈ columns then
    { title := "Irrigated vs Unirrigated Area Comparison", unit := "Hectares",
      labels := ["Irrigated", "Unirrigated"],
      values := [sumCol df "total_irrigated_area", sumCol df "total_unirrigated_area"],
      chart_type := "pie", comparison_type := some comparison_type }
  else if comparison_type = "assigned_vs_surveyed"
      && "total_assigned_plots" ∈ columns && "total_plots_surveyed" ∈ columns then
    { title := "Assigned vs Surveyed Plots Comparison", unit := "Plots",
      labels := ["Assigned", "Surveyed"],
      values := [sumCol df "total_assigned_plots", sumCol df "total_plots_surveyed"],
      chart_type := "bar", comparison_type := some comparison_type }
  else if comparison_type = "approved_vs_closed"
      && "crop_area_approved" ∈ columns && "crop_area_closed" ∈ columns then
    { title := "Approved vs Closed Crop Area", unit := "Hectares",
      labels := ["Approved", "Closed"],
      values := [sumCol df "crop_area_approved", sumCol df "crop_area_closed"],
      chart_type := "bar", comparison_type := some comparison_type }
  else if comparison_type = "surveyable_vs_surveyed"
      && "total_surveyable_area" ∈ columns && "total_surveyed_area" ∈ columns then
    { title := "Surveyable vs Surveyed Area", unit := "Hectares",
      labels := ["Surveyable", "Surveyed"],
      values := [sumCol df "total_surveyable_area", sumCol df "total_surveyed_area"],
      chart_type := "bar", comparison_type := some comparison_type }
  else if comparison_type = "rabi_vs_kharif" && "season" ∈ columns then
    let rabi_df := df.filter (fun r => lowerStr r.season == "rabi")
    let kharif_df := df.filter (fun r => lowerStr r.season == "kharif")
    { title := "Rabi vs Kharif - " ++ ind.title, unit := ind.unit,
      labels := ["Rabi", "Kharif"],
      values := [sumCol rabi_df val_col, sumCol kharif_df val_col],
      chart_type := "pie", comparison_type := some comparison_type }
  else if comparison_type = "fallow_vs_cultivated"
      && "total_fallow_area" ∈ columns && "total_surveyed_area" ∈ columns then
    let fallow := sumCol df "total_fallow_area"
    { title := "Fallow vs Cultivated Area", unit := "Hectares",
      labels := ["Fallow", "Cultivated"],
      values := [fallow, sumCol df "total_surveyed_area" - fallow],
      chart_type := "pie", comparison_type := some comparison_type }
  else if comparison_type = "crop_vs_survey" then
    let merged := merged_rows.filter (fun r => r.state_lgd_code == user_lgd)
    let crop_area := if "crop_area_approved" ∈ merged_columns
      then sumCol merged "crop_area_approved" else 0
    let surveyed_plots := if "total_plots_surveyed" ∈ merged_columns
      then sumCol merged "total_plots_surveyed" else 0
    { title := "Crop Area vs Survey Progress", unit := "Mixed",
      labels := ["Crop Area (Ha)", "Plots Surveyed"],
      values := [crop_area, surveyed_plots],
      chart_type := "bar", comparison_type := some comparison_type }
  else empty_result ind "Comparison data not available."

/-- `CSVHandler.get_combined_stats` (lines 400-446). -/
def get_combined_stats (env : CsvEnv) (user_lgd : String) : List (String × Int) :=
  let crop_df := (env.rows "crop_area").filter (fun r => r.state_lgd_code == user_lgd)
  let cc := env.columns "crop_area"
  let s1 :=
    (if "crop_area_approved" ∈ cc then [("total_crop_area", sumCol crop_df "crop_area_approved")] else [])
      ++ (if "no_of_farmers" ∈ cc then [("total_farmers", sumCol crop_df "no_of_farmers")] else [])
      ++ (if "no_of_plots" ∈ cc then [("total_crop_plots", sumCol crop_df "no_of_plots")] else [])
      ++ (if "crop_name_eng" ∈ cc then [("unique_crops", (uniqueCrops crop_df : Int))] else [])
  let agg_df := (env.rows "aggregate").filter (fun r => r.state_lgd_code == user_lgd)
  let ac := env.columns "aggregate"
  let s2 :=
    (if "total_plots" ∈ ac then [("total_plots", sumCol agg_df "total_plots")] else [])
      ++ (if "total_plots_surveyed" ∈ ac then [("plots_surveyed", sumCol agg_df "total_plots_surveyed")] else [])
      ++ (if "total_survey_approved" ∈ ac then [("surveys_approved", sumCol agg_df "total_survey_approved")] else [])
      ++ (if "total_no_of_surveyors" ∈ ac then [("total_surveyors", sumCol agg_df "total_no_of_surveyors")] else [])
  let cult_df := (env.rows "cultivated").filter (fun r => r.state_lgd_code == user_lgd)
  let uc := env.columns "cultivated"
  let s3 :=
    (if "total_surveyed_area" ∈ uc then [("total_surveyed_area", sumCol cult_df "total_surveyed_area")] else [])
      ++ (if "total_irrigated_area" ∈ uc then [("irrigated_area", sumCol cult_df "total_irrigated_area")] else [])
      ++ (if "total_unirrigated_area" ∈ uc then [("unirrigated_area", sumCol cult_df "total_unirrigated_area")] else [])
      ++ (if "total_fallow_area" ∈ uc then [("fallow_area", sumCol cult_df "total_fallow_area")] else [])
  s1 ++ s2 ++ s3

/-- `CSVHandler._overview_result` (lines 366-398). -/
def overview_result (env : CsvEnv) (user_lgd : String) : CsvResult :=
  let stats := get_combined_stats env user_lgd
  let sel := [("total_crop_area", "Crop Area (Ha)"), ("total_farmers", "Farmers"),
              ("plots_surveyed", "Plots Surveyed"), ("total_surveyed_area", "Surveyed Area (Ha)"),
              ("irrigated_area", "Irrigated (Ha)")]
  let pairs := sel.filterMap (fun kv => (assocLookup stats kv.1).map (fun v => (kv.2, v)))
  { title := "AgriStack Overview Dashboard", unit := "Mixed",
    labels := pairs.map Prod.fst, values := pairs.map Prod.snd,
    chart_type := "bar", record_count := pairs.length, extras := stats }

/-! ## `csv_handler.py` — the filter chain and `execute_analytics` -/

/-- The keep-if-nonempty filter step of `execute_analytics`:
`df_filtered = df[...]; if len(df_filtered) > 0: df = df_filtered` — a filter
that matches no row is silently discarded. -/
def maybe_filter (p : CsvRow → Bool) (df : List CsvRow) : List CsvRow :=
  let f := df.filter p
  if 0 < f.length then f else df

/-- The crop-filter predicate:
`df['crop_name_eng'].str.lower().str.contains(crop_filter.lower(), na=False)`. -/
def crop_pred (cf : String) (r : CsvRow) : Bool :=
  match r.crop_name_eng with
  | some c => containsStr (lowerStr c) (lowerStr cf)
  | none => false

/-- The season-filter predicate: `df['season'].str.lower() == season_filter.lower()`. -/
def season_pred (sf : String) (r : CsvRow) : Bool := lowerStr r.season == lowerStr sf

/-- The year-filter predicate: `df['year'].astype(str) == year_filter`. -/
def year_pred (yf : String) (r : CsvRow) : Bool := r.year == yf

/-- Lines 103-120 of `execute_analytics`: the crop, season and year filters
applied in order, each only when its value is truthy and its column exists,
and each discarded when it matches no row of the current frame. -/
def apply_intent_filters (columns : List String)
    (crop_filter season_filter year_filter : Option String)
    (df : List CsvRow) : List CsvRow :=
  let df1 := match crop_filter with
    | some c => if c ≠ "" ∧ "crop_name_eng" ∈ columns then maybe_filter (crop_pred c) df else df
    | none => df
  let df2 := match season_filter with
    | some s => if s ≠ "" ∧ "season" ∈ columns then maybe_filter (season_pred s) df1 else df1
    | none => df1
  match year_filter with
  | some y => if y ≠ "" ∧ "year" ∈ columns then maybe_filter (year_pred y) df2 else df2
  | none => df2

/-- The all-default `CfgInd`, only used as an unreachable `getD` fallback
after the indicator key has been normalized to an existing one. -/
def cfgDefault : CfgInd := ⟨"", "", "", "", []⟩

/-- `CSVHandler.execute_analytics(intent, user_lgd)` (lines 72-133):
overview short-circuit; indicator resolution with `"crop_area"` fallback;
mandatory state filter; empty-state short-circuit; the crop/season/year
filter chain; then comparison, grouped or summary result. -/
def csv_execute_analytics (env : CsvEnv) (intent : CsvIntent) (user_lgd : String) : CsvResult :=
  if intent.indicator = "overview" then overview_result env user_lgd
  else
    let indicator_key :=
      if (assocLookup INDICATORS intent.indicator).isSome then intent.indicator else "crop_area"
    let ind := (assocLookup INDICATORS indicator_key).getD cfgDefault
    let table_name := ind.table
    let columns := env.columns table_name
    let df0 := (env.rows table_name).filter (fun r => r.state_lgd_code == user_lgd)
    if df0.length = 0 then empty_result ind "No data found for this state."
    else
      let df := apply_intent_filters columns intent.crop_filter intent.season_filter
        intent.year_filter df0
      match intent.comparison_type with
      | some cmp =>
        handle_comparison columns df cmp ind env.merged_rows env.merged_columns user_lgd
      | none =>
        match intent.dimension with
        | some dk =>
          if (assocLookup DIMENSIONS dk).isSome then
            grouped_result columns df dk ind.column ind intent.crop_filter
              intent.season_filter intent.year_filter intent.top_n
          else
            summary_result columns df ind.column ind intent.crop_filter
              intent.season_filter intent.year_filter table_name
        | none =>
          summary_result columns df ind.column ind intent.crop_filter
            intent.season_filter intent.year_filter table_name

/-! ## Concrete sample rows (used to evaluate the theorems below) -/

/-- A sample row for state 27 with value 5 in every numeric column. -/
def wRowPos : CsvRow := { state_lgd_code := "27", year := "2022-2023", nums := fun _ => 5 }

/-- A sample row for state 27 with value -5 in every numeric column. -/
def wRowNeg : CsvRow := { state_lgd_code := "27", year := "2023-2024", nums := fun _ => -5 }

/-- A sample state-27 Rabi row with no crop name. -/
def wNoMatchRow : CsvRow := { state_lgd_code := "27", season := "Rabi", year := "2021-2022" }

/-! ## Order lemmas for the sorting primitives -/

theorem charToNat_inj {a b : Char} (h : a.toNat = b.toNat) : a = b :=
  Char.ext (UInt32.ext h)

theorem charListLe_total : ∀ xs ys : List Char, charListLe xs ys = true ∨ charListLe ys xs = true
  | [], _ => Or.inl rfl
  | _ :: _, [] => Or.inr rfl
  | x :: xs, y :: ys => by
    by_cases h : x = y
    · subst h
      simpa [charListLe] using charListLe_total xs ys
    · have h' : y ≠ x := fun e => h e.symm
      rcases Nat.lt_trichotomy x.toNat y.toNat with hlt | heq | hgt
      · exact Or.inl (by simp [charListLe, h, hlt])
      · exact absurd (charToNat_inj heq) h
      · exact Or.inr (by simp [charListLe, h', hgt])

theorem charListLe_trans : ∀ xs ys zs : List Char,
    charListLe xs ys = true → charListLe ys zs = true → charListLe xs zs = true
  | [], _, _, _, _ => rfl
  | _ :: _, [], _, h1, _ => by simp [charListLe] at h1
  | _ :: _, _ :: _, [], _, h2 => by simp [charListLe] at h2
  | x :: xs, y :: ys, z :: zs, h1, h2 => by
    by_cases hxy : x = y
    · subst hxy
      by_cases hxz : x = z
      · subst hxz
        simp only [charListLe, if_pos rfl] at h1 h2 ⊢
        exact charListLe_trans xs ys zs h1 h2
      · simp only [charListLe, if_pos rfl] at h1
        simpa [charListLe, hxz] using h2
    · simp only [charListLe, if_neg hxy, decide_eq_true_eq] at h1
      by_cases hyz : y = z
      · subst hyz
        simp [charListLe, hxy, h1]
      · simp only [charListLe, if_neg hyz, decide_eq_true_eq] at h2
        have hlt : x.toNat < z.toNat := Nat.lt_trans h1 h2
        have hxz : x ≠ z := fun e => absurd (congrArg Char.toNat e) (Nat.ne_of_lt hlt)
        simp [charListLe, hxz, hlt]

theorem strLeB_total (a b : String) : strLeB a b = true ∨ strLeB b a = true :=
  charListLe_total a.data b.data

theorem strLeB_trans {a b c : String} (h1 : strLeB a b = true) (h2 : strLeB b c = true) :
    strLeB a c = true :=
  charListLe_trans a.data b.data c.data h1 h2

theorem length_insertBy {α : Type} (le : α → α → Bool) (a : α) :
    ∀ l : List α, (insertBy le a l).length = l.length + 1
  | [] => rfl
  | b :: l => by
    by_cases h : le a b = true
    · simp [insertBy, h]
    · simp [insertBy, h, length_insertBy le a l]

theorem length_sortBy {α : Type} (le : α → α → Bool) :
    ∀ l : List α, (sortBy le l).length = l.length
  | [] => rfl
  | a :: l => by simp [sortBy, length_insertBy, length_sortBy le l]

theorem mem_insertBy {α : Type} (le : α → α → Bool) (a : α) :
    ∀ (l : List α) (x : α), x ∈ insertBy le a l → x = a ∨ x ∈ l
  | [], x, h => by simpa [insertBy] using h
  | b :: l, x, h => by
    by_cases hle : le a b = true
    · simp only [insertBy, if_pos hle, List.mem_cons] at h
      rcases h with h | h | h
      · exact Or.inl h
      · exact Or.inr (by simp [h])
      · exact Or.inr (List.mem_cons_of_mem _ h)
    · simp only [insertBy, if_neg hle, List.mem_cons] at h
      rcases h with h | h
      · exact Or.inr (by simp [h])
      · rcases mem_insertBy le a l x h with h' | h'
        · exact Or.inl h'
        · exact Or.inr (List.mem_cons_of_mem _ h')

theorem pairwise_insertBy {α : Type} (le : α → α → Bool)
    (htot : ∀ x y, le x y = true ∨ le y x = true)
    (htrans : ∀ x y z, le x y = true → le y z = true → le x z = true) (a : α) :
    ∀ l : List α, l.Pairwise (fun x y => le x y = true) →
      (insertBy le a l).Pairwise (fun x y => le x y = true)
  | [], _ => by simp [insertBy]
  | b :: l, h => by
    rcases List.pairwise_cons.mp h with ⟨hb, hl⟩
    by_cases hle : le a b = true
    · simp only [insertBy, if_pos hle]
      refine List.pairwise_cons.mpr ⟨?_, h⟩
      intro x hx
      rcases List.mem_cons.mp hx with h' | hx'
      · subst h'
        exact hle
      · exact htrans a b x hle (hb x hx')
    · have hba : le b a = true := (htot a b).resolve_left (fun h' => hle h')
      simp only [insertBy, if_neg hle]
      refine List.pairwise_cons.mpr ⟨?_, pairwise_insertBy le htot htrans a l hl⟩
      intro x hx
      rcases mem_insertBy le a l x hx with h' | hx'
      · subst h'
        exact hba
      · exact hb x hx'

theorem pairwise_sortBy {α : Type} (le : α → α → Bool)
    (htot : ∀ x y, le x y = true ∨ le y x = true)
    (htrans : ∀ x y z, le x y = true → le y z = true → le x z = true) :
    ∀ l : List α, (sortBy le l).Pairwise (fun x y => le x y = true)
  | [] => by simp [sortBy]
  | a :: l =>
    pairwise_insertBy le htot htrans a (sortBy le l) (pairwise_sortBy le htot htrans l)

/-! ## Claim theorems -/

/-- C2: for every call to `check_lgd_authorization`, a missing or empty
mentioned state is Allowed, a mentioned state that resolves to no known LGD
code is Allowed (fail open), and a denial is possible only when the
mentioned state resolves to a known code different from the caller's
`user_lgd`. -/
theorem c2_guard_fail_open :
    (∀ u, (check_lgd_authorization u none).authorized = true
        ∧ (check_lgd_authorization u (some "")).authorized = true)
  ∧ (∀ u s, assocLookup STATE_LGD_MAP (lowerStr s) = none →
      (check_lgd_authorization u (some s)).authorized = true)
  ∧ (∀ u s, (check_lgd_authorization u (some s)).authorized = false →
      ∃ c, assocLookup STATE_LGD_MAP (lowerStr s) = some c ∧ c ≠ u) := by
  refine ⟨fun u => ⟨rfl, rfl⟩, ?_, ?_⟩
  · intro u s h
    by_cases hs : s = ""
    · subst hs
      rfl
    · simp [check_lgd_authorization, hs, h]
  · intro u s h
    by_cases hs : s = ""
    · subst hs
      simp [check_lgd_authorization] at h
    · rcases hlk : assocLookup STATE_LGD_MAP (lowerStr s) with _ | c
      · simp [check_lgd_authorization, hs, hlk] at h
      · by_cases hcu : c = u
        · subst hcu
          simp [check_lgd_authorization, hs, hlk] at h
        · exact ⟨c, rfl, hcu⟩

/-- Witness for C2 at concrete inputs: an unresolvable name ("mumbai") is
allowed, and the denial for "bihar" against caller 27 exhibits the resolved
differing code. -/
theorem c2_guard_fail_open_witness :
    (check_lgd_authorization "27" (some "mumbai")).authorized = true
  ∧ ∃ c, assocLookup STATE_LGD_MAP (lowerStr "bihar") = some c ∧ c ≠ "27" :=
  ⟨c2_guard_fail_open.2.1 "27" "mumbai" (by decide),
   c2_guard_fail_open.2.2 "27" "bihar" (by decide)⟩

/-- C1: whenever the mentioned region of an analytics intent resolves to an
LGD code different from the caller's authorized code, the guard returns a
denial carrying both region names, both codes and a message, and the chat
pipeline's analytics branch returns the "Access Restricted" response
without building any SQL plan. -/
theorem c1_cross_region_denied (ulc : Option String) (intent : AppIntent) (s code : String)
    (hm : intent.mentioned_state = some s)
    (hcode : assocLookup STATE_LGD_MAP (lowerStr s) = some code)
    (hne : code ≠ effective_user_lgd ulc) :
    (check_lgd_authorization (effective_user_lgd ulc) (some s)).authorized = false
  ∧ (check_lgd_authorization (effective_user_lgd ulc) (some s)).requested_lgd = some code
  ∧ (check_lgd_authorization (effective_user_lgd ulc) (some s)).user_lgd
      = some (effective_user_lgd ulc)
  ∧ (∃ rs, (check_lgd_authorization (effective_user_lgd ulc) (some s)).requested_state = some rs)
  ∧ (∃ us, (check_lgd_authorization (effective_user_lgd ulc) (some s)).user_state = some us)
  ∧ (∃ m, (check_lgd_authorization (effective_user_lgd ulc) (some s)).message = some m)
  ∧ (chat_analytics ulc intent).isPlanned = false
  ∧ (chat_analytics ulc intent).title = "Access Restricted" := by
  have hs : s ≠ "" := by
    intro h
    subst h
    have hnone : assocLookup STATE_LGD_MAP (lowerStr "") = none := by decide
    rw [hnone] at hcode
    exact Option.noConfusion hcode
  have hred : check_lgd_authorization (effective_user_lgd ulc) (some s)
      = denied_result (effective_user_lgd ulc) code s := by
    simp only [check_lgd_authorization, hcode, if_neg hs]
    rw [if_pos hne]
  have hchat : chat_analytics ulc intent
      = .restricted "Access Restricted"
          ((denied_result (effective_user_lgd ulc) code s).message.getD "")
          (denied_result (effective_user_lgd ulc) code s) := by
    simp only [chat_analytics, hm, hred]
    rfl
  refine ⟨by rw [hred]; rfl, by rw [hred]; rfl, by rw [hred]; rfl,
    ⟨_, by rw [hred]; rfl⟩, ⟨_, by rw [hred]; rfl⟩, ⟨_, by rw [hred]; rfl⟩,
    by rw [hchat]; rfl, by rw [hchat]; rfl⟩

/-- Witness for C1: caller authorized for Maharashtra (27) asking about
Bihar (10) gets no plan and the Access Restricted title. -/
theorem c1_cross_region_denied_witness :
    (chat_analytics (some "27") { mentioned_state := some "bihar" }).isPlanned = false
  ∧ (chat_analytics (some "27") { mentioned_state := some "bihar" }).title
      = "Access Restricted" :=
  ⟨(c1_cross_region_denied (some "27") { mentioned_state := some "bihar" } "bihar" "10"
      rfl (by decide) (by decide)).2.2.2.2.2.2.1,
   (c1_cross_region_denied (some "27") { mentioned_state := some "bihar" } "bihar" "10"
      rfl (by decide) (by decide)).2.2.2.2.2.2.2⟩

/-- C3 (code bug): the claim says request-derived filter values are bound by
literal-safe parameterization and never concatenated into the SQL text, and
the source's own docstring says "Build a secure, parameterized SQL query" —
but both SQL builders interpolate the caller-supplied region code (and the
year/season values) directly into the SQL string with f-strings.  Evaluating
them at a region code containing a quote shows the quoting breaks and the
value lands verbatim in the SQL text. -/
theorem c3_filters_are_interpolated_not_parameterized :
    (build_analytics_sql "crop_area" none { year := some "all" } "27' OR '1'='1").sql
      = "SELECT SUM(crop_area_approved) as value FROM crop_area_data WHERE state_lgd_code = '27' OR '1'='1'"
  ∧ db_build_sql "crop_area" "crop_area_approved" none "27' OR '1'='1"
      = "SELECT 'Total' as label, SUM(crop_area_approved) as value FROM crop_area WHERE state_lgd_code = '27' OR '1'='1'  ORDER BY value DESC" := by
  exact ⟨rfl, rfl⟩

/-- C9: whenever no explicit year filter is present (the `year` entry absent
or `"current"`), the filter list of `build_analytics_sql` consists of the
mandatory state-code equality and a year condition equal to the MAX(year)
sub-select restricted to the caller's own state rows (plus the optional
season filter) — the wall clock never enters `sql_filters`. -/
theorem c9_current_year_is_data_max (table : String) (tp : TimeParams) (user_lgd : String)
    (h : tp.year.getD "current" = "current") :
    sql_filters table tp user_lgd
      = ["state_lgd_code = '" ++ user_lgd ++ "'",
         "year = (SELECT MAX(year) FROM " ++ table ++ " WHERE state_lgd_code = '"
           ++ user_lgd ++ "')"]
        ++ (match tp.season with
            | some s => if s = "" then [] else ["season ILIKE '" ++ s ++ "'"]
            | none => []) := by
  unfold sql_filters
  rw [h]
  simp only [if_pos rfl]
  cases tp.season with
  | none => rfl
  | some s =>
    by_cases hs : s = ""
    · simp [hs]
    · simp [hs]

/-- Witness for C9 at a concrete request: explicit `current` year and a
Kharif season for caller 27 on the crop-area table. -/
theorem c9_current_year_is_data_max_witness :
    sql_filters "crop_area_data" { year := some "current", season := some "Kharif" } "27"
      = ["state_lgd_code = '27'",
         "year = (SELECT MAX(year) FROM crop_area_data WHERE state_lgd_code = '27')",
         "season ILIKE 'Kharif'"] := by
  have h := c9_current_year_is_data_max "crop_area_data"
    { year := some "current", season := some "Kharif" } "27" rfl
  simpa using h

/-- C5 counterexample: "total crop area" matches the summary-keyword list
(`"total"`), yet the resulting analytics intent has `dimension = some "crop"`
— the crop-area auto-promotion of `classify_intent` step 11 runs after the
summary suppression and re-introduces a grouping, so the claim's
`dimension = None` fails. -/
theorem c5_counterexample :
    is_summary_request "total crop area" = true
  ∧ (classify_intent ⟨2026, 10⟩ "total crop area" none).dimension = some "crop"
  ∧ (classify_intent ⟨2026, 10⟩ "total crop area" none).mode = "analytics" := by
  exact ⟨by decide, by decide, by decide⟩

/-- C5 (amended): for a summary/total/overall query the dimension detector is
skipped, and the final intent has `dimension = None` — except when the
crop-area auto-promotion applies (indicator `crop_area`, no crop filter and a
crop-area keyword present), which sets `dimension = "crop"` even for summary
requests. -/
theorem c5_summary_suppresses_dimension (now : Now) (query : String)
    (district : Option (String × String))
    (h1 : (interNonempty (wordSet (trimStr (lowerStr query))) greetingsSet
        && decide ((wordSet (trimStr (lowerStr query))).length ≤ 5)) = false)
    (h2 : (interNonempty (wordSet (trimStr (lowerStr query))) helpWordsSet
        && decide ((wordSet (trimStr (lowerStr query))).length ≤ 8)) = false)
    (h3 : is_off_topic (trimStr (lowerStr query)) (wordSet (trimStr (lowerStr query)))
        (district.map Prod.fst).isSome = false)
    (h4 : ¬1 < (detect_multi_indicators (trimStr (lowerStr query))).length)
    (h5 : is_summary_request (trimStr (lowerStr query)) = true)
    (h6 : ¬(detect_indicator (trimStr (lowerStr query)) = "crop_area"
        ∧ detect_crop (trimStr (lowerStr query)) = []
        ∧ cropAreaAutoKws.any (fun kw => containsStr (trimStr (lowerStr query)) kw) = true)) :
    (classify_intent now query district).mode = "analytics"
  ∧ (classify_intent now query district).dimension = none := by
  have ho : ¬(is_off_topic (trimStr (lowerStr query)) (wordSet (trimStr (lowerStr query)))
      (district.map Prod.fst).isSome = true) := by
    rw [h3]
    exact Bool.false_ne_true
  unfold classify_intent
  rw [if_neg (by rw [h1]; exact Bool.false_ne_true), if_neg (by rw [h2]; exact Bool.false_ne_true),
    if_neg ho, if_neg h4, h5]
  simp only [if_pos rfl]
  refine ⟨by trivial, ?_⟩
  by_cases hi : detect_indicator (trimStr (lowerStr query)) = "crop_area"
  · by_cases hcf : detect_crop (trimStr (lowerStr query)) = []
    · by_cases hk : (cropAreaAutoKws.any
          fun kw => containsStr (trimStr (lowerStr query)) kw) = true
      · exact absurd ⟨hi, hcf, hk⟩ h6
      · simp [hi, hcf, hk]
    · simp [hi, hcf]
  · simp [hi]

/-- Witness for C5 (amended): the summary query "total farmers summary"
(indicator `farmers`, not crop-area) yields an analytics intent with no
grouping dimension. -/
theorem c5_summary_suppresses_dimension_witness :
    (classify_intent ⟨2026, 10⟩ "total farmers summary" none).mode = "analytics"
  ∧ (classify_intent ⟨2026, 10⟩ "total farmers summary" none).dimension = none :=
  c5_summary_suppresses_dimension ⟨2026, 10⟩ "total farmers summary" none
    (by decide) (by decide) (by decide) (by decide) (by decide) (by decide)

/-- C6 counterexample: the claim quantifies over every query containing the
year string "2022-23", but a query that also contains a current-year phrase
takes the wall-clock branch of `_detect_year` first: "current year 2022-23"
returns the agricultural year derived from the clock (here 2026-10), not
"2022-2023". -/
theorem c6_counterexample :
    containsStr "current year 2022-23" "2022-23" = true
  ∧ detect_year ⟨2026, 10⟩ "current year 2022-23" = some "2026-2027" := by
  exact ⟨by decide, by decide⟩

/-- C6 (amended): when the query contains no current-year phrase, the first
`YYYY-YYYY` match passes through unchanged and, failing that, the first
`YYYY-YY` match normalizes with second year = first year + 1; in particular
"2022-2023" round-trips and "2022-23" normalizes to "2022-2023", for any
wall-clock value. -/
theorem c6_year_roundtrip (now : Now) (q : String)
    (hcur : (["current year", "this year", "present year"].any
      (fun p => containsStr q p)) = false) :
    (findFirst year44At q.data = some "2022-2023" → detect_year now q = some "2022-2023")
  ∧ (findFirst year44At q.data = none → findFirst year42At q.data = some "2022-23" →
      detect_year now q = some "2022-2023") := by
  constructor
  · intro h44
    unfold detect_year
    rw [if_neg (by simp [hcur]), h44]
  · intro h44 h42
    unfold detect_year
    rw [if_neg (by simp [hcur]), h44, h42]
    rfl

/-- Witness for C6 (amended) at the two concrete year strings. -/
theorem c6_year_roundtrip_witness :
    detect_year ⟨2026, 10⟩ "2022-2023" = some "2022-2023"
  ∧ detect_year ⟨2026, 10⟩ "2022-23" = some "2022-2023" :=
  ⟨(c6_year_roundtrip ⟨2026, 10⟩ "2022-2023" (by decide)).1 (by decide),
   (c6_year_roundtrip ⟨2026, 10⟩ "2022-23" (by decide)).2 (by decide) (by decide)⟩

/-- C7 counterexample: the claim says a query containing a detected district
name is never classified off-topic, but district detection only guards the
no-keyword fallback branch of `_is_off_topic`: "nagpur weather", with the
district "Nagpur" detected, matches the "weather" topic marker, carries no
agricultural vocabulary, and is classified off-topic. -/
theorem c7_counterexample :
    (classify_intent ⟨2026, 10⟩ "nagpur weather" (some ("497", "Nagpur"))).mode = "off_topic"
  ∧ (classify_intent ⟨2026, 10⟩ "nagpur weather" (some ("497", "Nagpur"))).suggested_queries
      = suggested_queries_list := by
  exact ⟨by decide, by decide⟩

/-- C7 (amended): an off-topic classification always implies the query's
word set carries no agricultural vocabulary; a detected district name
prevents the off-topic classification only when neither a general-knowledge
pattern nor a topic marker matched; and the off-topic intent produced by
`classify_intent` carries exactly the fixed suggested-query list. -/
theorem c7_off_topic_scope :
    (∀ q w d, is_off_topic q w d = true → interNonempty w agri_keywords = false)
  ∧ (∀ q w, general_knowledge_match q = false →
      (off_topic_patterns.any (fun p => containsStr q p)) = false →
      is_off_topic q w true = false)
  ∧ (∀ (now : Now) (query : String) (district : Option (String × String)),
      (interNonempty (wordSet (trimStr (lowerStr query))) greetingsSet
        && decide ((wordSet (trimStr (lowerStr query))).length ≤ 5)) = false →
      (interNonempty (wordSet (trimStr (lowerStr query))) helpWordsSet
        && decide ((wordSet (trimStr (lowerStr query))).length ≤ 8)) = false →
      is_off_topic (trimStr (lowerStr query)) (wordSet (trimStr (lowerStr query)))
        (district.map Prod.fst).isSome = true →
      classify_intent now query district
        = { mode := "off_topic", original_query := some query,
            suggested_queries := suggested_queries_list }) := by
  refine ⟨?_, ?_, ?_⟩
  · intro q w d h
    unfold is_off_topic at h
    by_cases hg : general_knowledge_match q = true
    · rw [if_pos hg] at h
      cases hA : interNonempty w agri_keywords
      · rfl
      · rw [if_pos (by simp [hA])] at h
        cases h
    · rw [if_neg hg] at h
      by_cases hm : (off_topic_patterns.any fun p => containsStr q p) = true
      · rw [if_pos hm] at h
        cases hA : interNonempty w agri_keywords
        · rfl
        · rw [if_pos (by simp [hA])] at h
          cases h
      · rw [if_neg hm] at h
        by_cases hc : (!interNonempty w agri_keywords && !interNonempty w CROP_NAMES) = true
        · simp only [Bool.and_eq_true, Bool.not_eq_true'] at hc
          exact hc.1
        · rw [if_neg hc] at h
          cases h
  · intro q w hg hm
    cases hA : interNonempty w agri_keywords <;>
      cases hC : interNonempty w CROP_NAMES <;>
        simp [is_off_topic, hg, hm, hA, hC]
  · intro now query district h1 h2 h3
    unfold classify_intent
    rw [if_neg (by simp [h1]), if_neg (by simp [h2]), if_pos h3]

/-- Witness for C7 (amended): "what is bitcoin" (no greeting, no help words,
off-topic by the general-knowledge pattern with no agricultural vocabulary)
produces the off-topic intent with the fixed suggested queries. -/
theorem c7_off_topic_scope_witness :
    classify_intent ⟨2026, 10⟩ "what is bitcoin" none
      = { mode := "off_topic", original_query := some "what is bitcoin",
          suggested_queries := suggested_queries_list } :=
  c7_off_topic_scope.2.2 ⟨2026, 10⟩ "what is bitcoin" none (by decide) (by decide) (by decide)

/-- Shared helper: a filter step that matches no row of the frame is
discarded and leaves the frame unchanged. -/
theorem maybe_filter_of_no_match {p : CsvRow → Bool} {df : List CsvRow}
    (h : ∀ r ∈ df, p r = false) : maybe_filter p df = df := by
  unfold maybe_filter
  have hnil : df.filter p = [] := by
    rw [List.filter_eq_nil_iff]
    intro r hr
    simp [h r hr]
  simp [hnil]

/-- C8: an executed plan whose rows are absent or all-zero produces the
explicit no-data response of `chat` (empty chart values, "message" shape, a
no-data narration) rather than an exception, and the percentage-of-total
list of the in-memory grouped executor is identically zero whenever the
total is zero, so no division by zero occurs. -/
theorem c8_no_data_never_divides_by_zero :
    (∀ (plan : SqlPlan) (us ul : String) (narrate : List String → List Rat → String)
        (rows : List SqlRow), (∀ r ∈ rows, r.value.getD 0 = 0) →
      process_rows plan us ul narrate rows
        = { title := plan.title, chart_type := "message", chart_labels := none,
            chart_values := [], unit := plan.unit,
            narration := "No data found for " ++ lowerStr plan.title ++ " in " ++ us
              ++ " (LGD: " ++ ul
              ++ "). This may indicate no records for the selected criteria or pending data uploads.",
            result := "no_data" })
  ∧ (∀ (cols : List String) (df : List CsvRow) (dk vc : String) (ind : CfgInd)
        (cf sf yf : Option String) (n : Nat),
      (grouped_result cols df dk vc ind cf sf yf n).total = 0 →
      (grouped_result cols df dk vc ind cf sf yf n).percentages
        = (grouped_result cols df dk vc ind cf sf yf n).values.map (fun _ => (0 : Rat))) := by
  constructor
  · intro plan us ul narrate rows h
    unfold process_rows
    have hall : (rows.map (fun r => r.value.getD 0)).all (fun v => v == 0) = true := by
      rw [List.all_eq_true]
      intro v hv
      rcases List.mem_map.mp hv with ⟨r, hr, rfl⟩
      simp [h r hr]
    simp [hall]
  · intro cols df dk vc ind cf sf yf n h
    by_cases hc : ((assocLookup DIMENSIONS dk).getD ⟨"", "", []⟩).column ∈ cols
    · simp only [grouped_result, if_pos hc] at h ⊢
      rw [h]
      simp only [lt_self_iff_false, ite_false]
    · simp only [grouped_result, if_neg hc] at h ⊢
      rfl

/-- Witness for C8: a fetched row set whose values are NULL/zero yields the
no-data response, and a concrete year-grouped frame with a zero total gets an
all-zero percentage list. -/
theorem c8_no_data_never_divides_by_zero_witness :
    (process_rows (build_analytics_sql "crop_area" none {} "27") "Maharashtra" "27"
        (fun _ _ => "") [{ label := some "x", value := some 0 }, {}]).result = "no_data"
  ∧ (grouped_result ["year"] [wRowPos, wRowNeg] "year" "v" cfgDefault none none none 10).percentages
      = (grouped_result ["year"] [wRowPos, wRowNeg] "year" "v" cfgDefault
          none none none 10).values.map (fun _ => (0 : Rat)) :=
  ⟨congrArg ChatResponse.result
    (c8_no_data_never_divides_by_zero.1 (build_analytics_sql "crop_area" none {} "27")
      "Maharashtra" "27" (fun _ _ => "") [{ label := some "x", value := some 0 }, {}]
      (by decide)),
   c8_no_data_never_divides_by_zero.2 ["year"] [wRowPos, wRowNeg] "year" "v" cfgDefault
     none none none 10 (by decide)⟩

/-- C10 (implicit): in the in-memory executor's filter chain, a crop, season
or year filter restricts the data only when at least one row of the current
state-scoped frame matches it; a filter matching zero rows is silently
discarded, leaving the frame — and hence the aggregate — computed over the
unfiltered state-scoped data, and every surviving row always comes from the
original frame. -/
theorem c10_zero_match_filters_discarded :
    (∀ (columns : List String) (cf sf yf : String) (df : List CsvRow),
      (∀ r ∈ df, crop_pred cf r = false) → (∀ r ∈ df, season_pred sf r = false) →
      (∀ r ∈ df, year_pred yf r = false) →
      apply_intent_filters columns (some cf) (some sf) (some yf) df = df)
  ∧ (∀ (p : CsvRow → Bool) (df : List CsvRow), maybe_filter p df ≠ df →
      ∃ r, r ∈ df ∧ p r = true)
  ∧ (∀ (p : CsvRow → Bool) (df : List CsvRow) (r : CsvRow), r ∈ maybe_filter p df → r ∈ df) := by
  refine ⟨?_, ?_, ?_⟩
  · intro columns cf sf yf df h1 h2 h3
    unfold apply_intent_filters
    by_cases hc : cf ≠ "" ∧ "crop_name_eng" ∈ columns <;>
      by_cases hs : sf ≠ "" ∧ "season" ∈ columns <;>
        by_cases hy : yf ≠ "" ∧ "year" ∈ columns <;>
          simp [hc, hs, hy, maybe_filter_of_no_match h1, maybe_filter_of_no_match h2,
            maybe_filter_of_no_match h3]
  · intro p df hne
    by_cases hl : 0 < (df.filter p).length
    · have hnil : df.filter p ≠ [] := by
        intro h0
        rw [h0] at hl
        exact absurd hl (by simp)
      rcases List.exists_mem_of_ne_nil _ hnil with ⟨r, hr⟩
      exact ⟨r, (List.mem_filter.mp hr).1, (List.mem_filter.mp hr).2⟩
    · exact absurd (by unfold maybe_filter; rw [if_neg hl]) hne
  · intro p df r hr
    unfold maybe_filter at hr
    by_cases hl : 0 < (df.filter p).length
    · rw [if_pos hl] at hr
      exact (List.mem_filter.mp hr).1
    · rwa [if_neg hl] at hr

/-- Witness for C10: a crop/season/year filter combination matching no row
of a concrete state-scoped frame leaves the frame unchanged. -/
theorem c10_zero_match_filters_discarded_witness :
    apply_intent_filters ["crop_name_eng", "season", "year"] (some "wheat") (some "Kharif")
      (some "2022-2023") [wNoMatchRow] = [wNoMatchRow] :=
  c10_zero_match_filters_discarded.1 ["crop_name_eng", "season", "year"] "wheat" "Kharif"
    "2022-2023" [wNoMatchRow] (by decide) (by decide) (by decide)

/-- C4 counterexample: the claim covers every grouped analytics execution,
but the SQL planner of `app.py` emits `ORDER BY value DESC` and `LIMIT 15`
for every grouped plan — including the `year` dimension, for which the claim
requires chronological ascending order and no row cap. -/
theorem c4_counterexample :
    build_sql_parts "irrigated_land" (some "year") { year := some "all" } "27"
      = ["SELECT year as label, SUM(total_irrigated_area) as value",
         "FROM cultivated_summary_data",
         "WHERE state_lgd_code = '27'",
         "GROUP BY year", "ORDER BY value DESC", "LIMIT 15"] := by
  decide

/-- C4 (amended): in the in-memory executor, grouping by `year` yields labels
in ascending (chronological) order with no row cap, and grouping by any
other registered dimension yields values in descending order capped at
`top_n`; the SQL planner of `app.py`, however, appends `ORDER BY value DESC`
and `LIMIT 15` to every grouped plan, including the `year` dimension. -/
theorem c4_grouped_ordering :
    (∀ (cols : List String) (df : List CsvRow) (vc : String) (ind : CfgInd)
        (cf sf yf : Option String) (n : Nat), "year" ∈ cols →
      (grouped_result cols df "year" vc ind cf sf yf n).labels.Pairwise
          (fun a b => strLeB a b = true)
        ∧ (grouped_result cols df "year" vc ind cf sf yf n).labels.length
            = (groupKeys df "year").length)
  ∧ (∀ (cols : List String) (df : List CsvRow) (dk : String) (m : CfgDim) (vc : String)
        (ind : CfgInd) (cf sf yf : Option String) (n : Nat),
      dk ≠ "year" → assocLookup DIMENSIONS dk = some m → m.column ∈ cols →
      (grouped_result cols df dk vc ind cf sf yf n).values.Pairwise (fun a b => b ≤ a)
        ∧ (grouped_result cols df dk vc ind cf sf yf n).values.length ≤ n)
  ∧ (∀ (ik d : String) (m : DimMeta) (tp : TimeParams) (lgd : String),
      assocLookup DIMENSION_MAP d = some m →
      ∃ s f w, build_sql_parts ik (some d) tp lgd
        = [s, f, w, "GROUP BY " ++ m.column, "ORDER BY value DESC", "LIMIT 15"]) := by
  refine ⟨?_, ?_, ?_⟩
  · intro cols df vc ind cf sf yf n hy
    have hcol : ((assocLookup DIMENSIONS "year").getD ⟨"", "", []⟩).column ∈ cols := hy
    simp only [grouped_result, groupSum, if_pos hcol, if_pos rfl, if_true]
    constructor
    · rw [List.pairwise_map]
      exact pairwise_sortBy (fun a b : String × Int => strLeB a.1 b.1)
        (fun x y => strLeB_total x.1 y.1) (fun x y z h1 h2 => strLeB_trans h1 h2) _
    · rw [List.length_map, length_sortBy, List.length_map]
      rfl
  · intro cols df dk m vc ind cf sf yf n hne hlk hcol
    have hcol' : ((assocLookup DIMENSIONS dk).getD ⟨"", "", []⟩).column ∈ cols := by
      rw [hlk]
      exact hcol
    simp only [grouped_result, if_pos hcol', if_neg hne]
    have htot : ∀ x y : String × Int,
        (decide (y.2 ≤ x.2)) = true ∨ (decide (x.2 ≤ y.2)) = true := by
      intro x y
      rcases Int.le_total y.2 x.2 with h | h
      · exact Or.inl (by simpa using h)
      · exact Or.inr (by simpa using h)
    have htr : ∀ x y z : String × Int, (decide (y.2 ≤ x.2)) = true →
        (decide (z.2 ≤ y.2)) = true → (decide (z.2 ≤ x.2)) = true := by
      intro x y z h1 h2
      simp only [decide_eq_true_eq] at h1 h2 ⊢
      exact le_trans h2 h1
    constructor
    · rw [List.pairwise_map]
      have hp := pairwise_sortBy (fun a b : String × Int => decide (b.2 ≤ a.2)) htot htr
        (groupSum df ((assocLookup DIMENSIONS dk).getD ⟨"", "", []⟩).column
          (fun r => r.nums vc))
      have hp' := List.Pairwise.sublist (List.take_sublist n _) hp
      exact List.Pairwise.imp (fun h => by simpa using h) hp'
    · rw [List.length_map, List.length_take]
      exact min_le_left _ _
  · intro ik d m tp lgd hm
    simp only [build_sql_parts, Option.some_bind, hm]
    exact ⟨_, _, _, rfl⟩

/-- Witness for C4 (amended): the year-grouped in-memory result over two
concrete rows has ascending labels and no cap, and the district-grouped SQL
plan ends in the descending order and LIMIT clauses. -/
theorem c4_grouped_ordering_witness :
    ((grouped_result ["year"] [wRowNeg, wRowPos] "year" "v" cfgDefault
          none none none 1).labels.Pairwise (fun a b => strLeB a b = true)
      ∧ (grouped_result ["year"] [wRowNeg, wRowPos] "year" "v" cfgDefault
          none none none 1).labels.length = (groupKeys [wRowNeg, wRowPos] "year").length)
  ∧ ∃ s f w, build_sql_parts "crop_area" (some "district") { year := some "all" } "27"
      = [s, f, w, "GROUP BY district_lgd_code", "ORDER BY value DESC", "LIMIT 15"] :=
  ⟨c4_grouped_ordering.1 ["year"] [wRowNeg, wRowPos] "v" cfgDefault none none none 1 (by decide),
   c4_grouped_ordering.2.2 "crop_area" "district" ⟨"district_lgd_code", "bar", "District"⟩
     { year := some "all" } "27" (by decide)⟩

end AgriStack
